import Mathlib

/-!
Verification development for the WordArena game server (harshbaid-13/WordArena).

This file contains a shallow embedding, in Lean 4, of the server-side core of
the WordArena speed-Wordle service:

* the color evaluation of a guess against a target word
  (WordService.evaluateGuess, src/unnamed/part_001);
* the bot engine pattern / constraint machinery and guess selection
  (BotService, src/server/src/services/MatchmakingService.js);
* the matchmaking bot spawn table (MatchmakingService.createBotOpponent);
* the ELO rating mathematics (EloService, src/unnamed/part_000) and the
  game-end rating dispatch (handleGameEnd / notifyGameEnd,
  src/server/src/controllers/gameController.js);
* the match state store, win lock and guess pipeline
  (GameService.processGuess / forfeitGame, src/server/src/services/GameService.js,
  with the Redis primitives of src/server/src/config/redis.js).

Modelling conventions:

* JavaScript strings are Lean Strings; the JS string methods toUpperCase()
  and trim() are embedded as character-wise maps over the underlying
  character list (toUpperS, trimS below).
* JS numbers holding ratings are embedded as integers where the source only
  ever stores integers, and as real numbers inside the ELO formulas
  (Math.pow(10, x) becomes real exponentiation, Math.round becomes
  jsRound x = Int.floor (x + 1/2), which agrees with Math.round on all reals).
* Math.random()-driven choices are embedded as oracle parameters: an index
  pick Math.floor(Math.random() * n) becomes an arbitrary natural number
  taken modulo n, and a raw Math.random() roll becomes an arbitrary real.
  Quantifying over the oracle covers every sequence of random draws.
* The Redis store is a value (association lists for game states and win
  locks); SETEX overwrite is modelled by shadowing (the most recent binding
  is the one found), SET NX is a conditional insert.  Key expiry (TTLs) is
  not modelled: all claims below concern windows far shorter than the TTLs.
* The dictionary data files (answers.json, valid_guesses.json) are not part
  of the repository snapshot, so the loaded dictionaries are parameters of
  the embedded functions.  Where a claim needs a property of the dictionary
  the property is taken from the spec (arrays of 5-letter strings, the
  valid-guess set a superset of the answers) and flagged as spec-modelled.
-/

/-! ### Colors and the letter/color records of WordService.evaluateGuess -/

/-- Tile colors, the literal values 'green' / 'yellow' / 'grey' of the source. -/
inductive Color where
  | green
  | yellow
  | grey
deriving DecidableEq, Repr

/-- One entry of the evaluation array built by WordService.evaluateGuess:
the source stores objects { letter, color }. -/
structure LetterColor where
  letter : Char
  color : Color
deriving DecidableEq, Repr

/-- Embedding of the inner j-loop shared by WordService.evaluateGuess and
BotService.getPattern: scan the target letters (paired with their matched
flags) left to right and set the flag of the first unmatched occurrence of c;
return none when no unmatched occurrence exists. -/
def markFirst (c : Char) : List (Char × Bool) → Option (List (Char × Bool))
  | [] => none
  | p :: rest =>
    if p.2 = false ∧ p.1 = c then some ((p.1, true) :: rest)
    else
      match markFirst c rest with
      | some rest2 => some (p :: rest2)
      | none => none

/-- Second pass of WordService.evaluateGuess: walk the guess letters (paired
with their pass-1 green flags); green positions are kept, otherwise the first
unmatched equal target letter is consumed for a yellow, else grey. -/
def pass2 : List (Char × Bool) → List (Char × Bool) → List LetterColor
  | [], _ => []
  | p :: gs, ts =>
    if p.2 then ⟨p.1, Color.green⟩ :: pass2 gs ts
    else
      match markFirst p.1 ts with
      | some ts2 => ⟨p.1, Color.yellow⟩ :: pass2 gs ts2
      | none => ⟨p.1, Color.grey⟩ :: pass2 gs ts

/-- Pass-1 green flags of WordService.evaluateGuess: position i is flagged iff
guessLetters[i] === targetLetters[i].  The same flags initialise the matched
array over the target. -/
def greenFlags (g t : List Char) : List Bool :=
  List.zipWith (fun a b => decide (a = b)) g t

/-- Embedding of WordService.evaluateGuess (src/unnamed/part_001 lines
105-145) on letter lists: first pass marks greens and consumes those target
positions, second pass marks each remaining guess position yellow iff some
unconsumed target position holds the same letter (consuming the leftmost such
position), otherwise grey.  The string-level wrapper uppercasing both
arguments is evaluateGuessS below. -/
def evaluateGuess (g t : List Char) : List LetterColor :=
  pass2 (g.zip (greenFlags g t)) (t.zip (greenFlags g t))

/-- Embedding of the JS String.prototype.toUpperCase() used throughout the
source: character-wise upper-casing. -/
def toUpperS (s : String) : String :=
  String.mk (s.data.map Char.toUpper)

/-- Leading/trailing-whitespace removal on character lists (JS
String.prototype.trim()). -/
def trimChars (l : List Char) : List Char :=
  ((l.dropWhile Char.isWhitespace).reverse.dropWhile Char.isWhitespace).reverse

/-- Embedding of the JS String.prototype.trim() used by
GameService.processGuess. -/
def trimS (s : String) : String :=
  String.mk (trimChars s.data)

/-- String-level WordService.evaluateGuess: the source uppercases both the
guess and the target before the two passes. -/
def evaluateGuessS (guess target : String) : List LetterColor :=
  evaluateGuess (toUpperS guess).data (toUpperS target).data

/-- Embedding of WordService.isCorrectGuess: case-insensitive equality of
guess and target. -/
def isCorrectGuess (guess target : String) : Bool :=
  toUpperS guess == toUpperS target

/-- Embedding of WordService.isValidGuess: membership of the uppercased word
in the loaded valid-guess set (passed as the parameter V, see the header
note on the missing data files). -/
def isValidGuess (V : List String) (word : String) : Bool :=
  decide (toUpperS word ∈ V)

/-! ### Counting lemmas for the evaluation rule (claim C1)

For a letter L we count, in a target state (letters paired with matched
flags), the unmatched and matched occurrences of L, and in the evaluation
output the non-grey positions carrying L. -/

/-- Unmatched occurrences of the letter L in a flagged letter list. -/
def uCnt (L : Char) : List (Char × Bool) → Nat
  | [] => 0
  | p :: l => (if p.1 = L ∧ p.2 = false then 1 else 0) + uCnt L l

/-- Matched (flagged) occurrences of the letter L in a flagged letter list. -/
def fCnt (L : Char) : List (Char × Bool) → Nat
  | [] => 0
  | p :: l => (if p.1 = L ∧ p.2 = true then 1 else 0) + fCnt L l

/-- Non-grey output positions whose guess letter is L. -/
def nonGreyCnt (L : Char) : List LetterColor → Nat
  | [] => 0
  | e :: l => (if e.letter = L ∧ e.color ≠ Color.grey then 1 else 0) + nonGreyCnt L l

theorem markFirst_none {c : Char} {ts : List (Char × Bool)}
    (h : markFirst c ts = none) : uCnt c ts = 0 := by
  induction ts with
  | nil => rfl
  | cons p rest ih =>
    rw [markFirst] at h
    split at h
    · exact absurd h (by simp)
    · rename_i hp
      cases hm : markFirst c rest with
      | some ts2 => rw [hm] at h; exact absurd h (by simp)
      | none =>
        have hrest := ih hm
        have hps : ¬ (p.1 = c ∧ p.2 = false) := fun hc => hp ⟨hc.2, hc.1⟩
        simp only [uCnt, if_neg hps, hrest]

theorem markFirst_some {c : Char} {ts ts2 : List (Char × Bool)}
    (h : markFirst c ts = some ts2) :
    uCnt c ts = uCnt c ts2 + 1 ∧ ∀ L, L ≠ c → uCnt L ts2 = uCnt L ts := by
  induction ts generalizing ts2 with
  | nil => simp [markFirst] at h
  | cons p rest ih =>
    rw [markFirst] at h
    split at h
    · rename_i hp
      obtain ⟨h2, h1⟩ := hp
      have hts2 : ts2 = (p.1, true) :: rest := by
        simpa using h.symm
      subst hts2
      constructor
      · simp only [uCnt, if_pos (And.intro h1 h2),
          if_neg (by simp : ¬ ((p.1, true).1 = c ∧ (p.1, true).2 = false))]
        omega
      · intro L hL
        have hne : ¬ (p.1 = L) := by rw [h1]; exact fun hc => hL hc.symm
        simp only [uCnt]
        rw [if_neg (fun hc => hne hc.1), if_neg (fun hc => hne hc.1)]
    · rename_i hp
      cases hm : markFirst c rest with
      | none => rw [hm] at h; exact absurd h (by simp)
      | some rest2 =>
        rw [hm] at h
        have hts2 : ts2 = p :: rest2 := by simpa using h.symm
        subst hts2
        obtain ⟨ih1, ih2⟩ := ih hm
        constructor
        · simp only [uCnt, ih1]
          omega
        · intro L hL
          simp only [uCnt, ih2 L hL]

theorem pass2_count (L : Char) :
    ∀ (gs ts : List (Char × Bool)),
      nonGreyCnt L (pass2 gs ts) = fCnt L gs + min (uCnt L gs) (uCnt L ts) := by
  intro gs
  induction gs with
  | nil => intro ts; simp [pass2, nonGreyCnt, fCnt, uCnt]
  | cons p gs ih =>
    intro ts
    rw [pass2]
    by_cases hflag : p.2
    · rw [if_pos hflag]
      simp only [nonGreyCnt, fCnt, uCnt, ih ts, hflag]
      by_cases hL : p.1 = L <;> simp [hL] <;> omega
    · rw [if_neg hflag]
      have hflag' : p.2 = false := by simpa using hflag
      cases hm : markFirst p.1 ts with
      | some ts2 =>
        obtain ⟨hm1, hm2⟩ := markFirst_some hm
        by_cases hL : p.1 = L
        · subst hL
          simp only [nonGreyCnt, fCnt, uCnt, ih ts2, hflag', hm1]
          simp
          omega
        · have huL := hm2 L (fun hc => hL hc.symm)
          simp only [nonGreyCnt, fCnt, uCnt, ih ts2, hflag', huL]
          simp [hL]
      | none =>
        have hz := markFirst_none hm
        by_cases hL : p.1 = L
        · subst hL
          simp only [nonGreyCnt, fCnt, uCnt, ih ts, hflag', hz]
          simp
        · simp only [nonGreyCnt, fCnt, uCnt, ih ts, hflag']
          simp [hL]

theorem pass2_length :
    ∀ (gs ts : List (Char × Bool)), (pass2 gs ts).length = gs.length := by
  intro gs
  induction gs with
  | nil => intro ts; simp [pass2]
  | cons p gs ih =>
    intro ts
    rw [pass2]
    split
    · simp [ih]
    · cases hm : markFirst p.1 ts <;> simp [ih]


/-- Occurrences of the letter L in a word (countInGuess / countInTarget of the
spec). -/
def cntL (L : Char) : List Char → Nat
  | [] => 0
  | c :: l => (if c = L then 1 else 0) + cntL L l

theorem zip_step (a b : Char) (g t : List Char) :
    (a :: g).zip (greenFlags (a :: g) (b :: t)) =
      (a, decide (a = b)) :: g.zip (greenFlags g t) := rfl

theorem zip_step_t (a b : Char) (g t : List Char) :
    (b :: t).zip (greenFlags (a :: g) (b :: t)) =
      (b, decide (a = b)) :: t.zip (greenFlags g t) := rfl

theorem fCnt_zip_symm (L : Char) :
    ∀ (g t : List Char), fCnt L (g.zip (greenFlags g t)) = fCnt L (t.zip (greenFlags g t)) := by
  intro g
  induction g with
  | nil => intro t; simp [greenFlags, fCnt]
  | cons a g ih =>
    intro t
    cases t with
    | nil => simp [greenFlags, fCnt]
    | cons b t =>
      rw [zip_step, zip_step_t]
      simp only [fCnt]
      by_cases hab : a = b
      · subst hab
        simp [ih t]
      · have hd : decide (a = b) = false := by simpa using hab
        rw [hd]
        simp [ih t]

theorem fCnt_uCnt_split (L : Char) :
    ∀ (g t : List Char), g.length = t.length →
      fCnt L (g.zip (greenFlags g t)) + uCnt L (g.zip (greenFlags g t)) = cntL L g := by
  intro g
  induction g with
  | nil =>
    intro t _
    simp [greenFlags, fCnt, uCnt, cntL]
  | cons a g ih =>
    intro t ht
    cases t with
    | nil => simp at ht
    | cons b t =>
      have hlen : g.length = t.length := by simpa using ht
      rw [zip_step]
      simp only [fCnt, uCnt, cntL]
      have hrec := ih t hlen
      by_cases haL : a = L
      · subst haL
        by_cases hab : a = b
        · subst hab
          simp
          omega
        · have hd : decide (a = b) = false := by simpa using hab
          rw [hd, if_neg (by simp), if_pos ⟨rfl, rfl⟩, if_pos rfl]
          omega
      · rw [if_neg (fun hc => haL hc.1), if_neg (fun hc => haL hc.1), if_neg haL]
        omega

theorem fCnt_uCnt_split_t (L : Char) :
    ∀ (g t : List Char), g.length = t.length →
      fCnt L (t.zip (greenFlags g t)) + uCnt L (t.zip (greenFlags g t)) = cntL L t := by
  intro g
  induction g with
  | nil =>
    intro t ht
    have : t = [] := by cases t <;> simp_all
    subst this
    simp [greenFlags, fCnt, uCnt, cntL]
  | cons a g ih =>
    intro t ht
    cases t with
    | nil => simp at ht
    | cons b t =>
      have hlen : g.length = t.length := by simpa using ht
      rw [zip_step_t]
      simp only [fCnt, uCnt, cntL]
      have hrec := ih t hlen
      by_cases hbL : b = L
      · subst hbL
        by_cases hab : a = b
        · subst hab
          simp
          omega
        · have hd : decide (a = b) = false := by simpa using hab
          rw [hd, if_neg (by simp), if_pos ⟨rfl, rfl⟩, if_pos rfl]
          omega
      · rw [if_neg (fun hc => hbL hc.1), if_neg (fun hc => hbL hc.1), if_neg hbL]
        omega

theorem evaluateGuess_length (g t : List Char) (hg : g.length = 5) (ht : t.length = 5) :
    (evaluateGuess g t).length = 5 := by
  rw [evaluateGuess, pass2_length, List.length_zip, greenFlags, List.length_zipWith]
  omega

theorem evaluateGuess_count (L : Char) (g t : List Char) (h : g.length = t.length) :
    nonGreyCnt L (evaluateGuess g t) = min (cntL L g) (cntL L t) := by
  rw [evaluateGuess, pass2_count]
  have e1 := fCnt_zip_symm L g t
  have e2 := fCnt_uCnt_split L g t h
  have e3 := fCnt_uCnt_split_t L g t h
  omega

/-- C1: for every pair of 5-letter words, WordService.evaluateGuess returns a
length-5 color sequence computed by the two-pass rule (greens consume their
target positions, then each remaining guess position is yellow iff an
unconsumed target position holds the same letter, consuming the leftmost such
position, else grey; this IS the definition of evaluateGuess above, translated
from the source); consequently for every letter L the count of non-GREY
positions whose guess letter is L equals min(countInGuess L, countInTarget L),
and guess LLAMA against target ALLOY yields
[YELLOW, GREEN, YELLOW, GREY, GREY]. -/
theorem C1_evaluateGuess_two_pass (g t : List Char)
    (hg : g.length = 5) (ht : t.length = 5) :
    (evaluateGuess g t).length = 5 ∧
    (∀ L : Char, nonGreyCnt L (evaluateGuess g t) = min (cntL L g) (cntL L t)) ∧
    evaluateGuess "LLAMA".data "ALLOY".data =
      [⟨'L', Color.yellow⟩, ⟨'L', Color.green⟩, ⟨'A', Color.yellow⟩,
       ⟨'M', Color.grey⟩, ⟨'A', Color.grey⟩] := by
  refine ⟨evaluateGuess_length g t hg ht, ?_, by decide⟩
  intro L
  exact evaluateGuess_count L g t (by omega)

/-- Witness for C1 at the concrete pair (CRANE, REACT). -/
theorem C1_evaluateGuess_two_pass_witness :
    (evaluateGuess "CRANE".data "REACT".data).length = 5 ∧
    (∀ L : Char, nonGreyCnt L (evaluateGuess "CRANE".data "REACT".data) =
      min (cntL L "CRANE".data) (cntL L "REACT".data)) ∧
    evaluateGuess "LLAMA".data "ALLOY".data =
      [⟨'L', Color.yellow⟩, ⟨'L', Color.green⟩, ⟨'A', Color.yellow⟩,
       ⟨'M', Color.grey⟩, ⟨'A', Color.grey⟩] :=
  C1_evaluateGuess_two_pass "CRANE".data "REACT".data (by decide) (by decide)

/-! ### BotService: pattern encoding and constraint filtering
(src/server/src/services/MatchmakingService.js, BotService part) -/

/-- Second pass of BotService.getPattern: identical loop structure to
evaluateGuess but emitting the flat G/Y/X characters. -/
def pass2P : List (Char × Bool) → List (Char × Bool) → List Char
  | [], _ => []
  | p :: gs, ts =>
    if p.2 then 'G' :: pass2P gs ts
    else
      match markFirst p.1 ts with
      | some ts2 => 'Y' :: pass2P gs ts2
      | none => 'X' :: pass2P gs ts

/-- Embedding of BotService.getPattern (MatchmakingService.js lines 948-975):
the five-character pattern string over G/Y/X produced by the two-pass rule.
Unlike WordService.evaluateGuess this function does not uppercase its
arguments (bot words are already uppercase). -/
def getPattern (guess target : String) : String :=
  String.mk (pass2P (guess.data.zip (greenFlags guess.data target.data))
                    (target.data.zip (greenFlags guess.data target.data)))

/-- One entry of a bot's constraint history: a past guess and the pattern it
received. -/
structure Constraint where
  guess : String
  pattern : String
deriving DecidableEq, Repr

/-- Embedding of BotService.matchesConstraints: a word is consistent with the
history iff every past (guess, pattern) pair reproduces its pattern against
the word. -/
def matchesConstraints (word : String) (constraints : List Constraint) : Bool :=
  constraints.all (fun c => getPattern c.guess word == c.pattern)

/-- Embedding of BotService.filterPossibleAnswers. -/
def filterPossibleAnswers (possibleAnswers : List String)
    (constraints : List Constraint) : List String :=
  possibleAnswers.filter (fun w => matchesConstraints w constraints)

/-- Per-match synthetic state (BotService.createBotInstance's object). -/
structure BotInstance where
  difficulty : String
  targetWord : String
  possibleAnswers : List String
  constraints : List Constraint
  guessCount : Nat
deriving Repr

/-- Embedding of BotService.createBotInstance.  The source initialises
possibleAnswers with WordService.getAllAnswers(); the loaded answer list is
the parameter answers0 (the data file is not in the repository snapshot). -/
def createBotInstance (answers0 : List String) (difficulty targetWord : String) :
    BotInstance :=
  { difficulty := difficulty
    targetWord := targetWord
    possibleAnswers := answers0
    constraints := []
    guessCount := 0 }

/-- Embedding of BotService.updateBotState: push the (guess, pattern)
constraint, bump the guess count, and re-filter the remaining answers through
the full constraint list.  The source mutates the instance in place; here the
updated instance is returned. -/
def updateBotState (b : BotInstance) (guess pattern : String) : BotInstance :=
  let cs := b.constraints ++ [⟨guess, pattern⟩]
  { b with
    constraints := cs
    guessCount := b.guessCount + 1
    possibleAnswers := filterPossibleAnswers b.possibleAnswers cs }

/-- Repeated application of updateBotState with the true pattern of each
guess against the target T, starting from a fresh bot instance — the driving
loop of gameController.triggerBotGuess, which feeds updateBotState the
pattern computed from the real evaluation of the bot's guess. -/
def runBot (answers0 : List String) (difficulty T : String)
    (gs : List String) : BotInstance :=
  gs.foldl (fun b g => updateBotState b g (getPattern g T))
    (createBotInstance answers0 difficulty T)

theorem matchesConstraints_of_true {T : String} {cs : List Constraint}
    (h : ∀ c ∈ cs, getPattern c.guess T = c.pattern) :
    matchesConstraints T cs = true := by
  simp only [matchesConstraints, List.all_eq_true]
  intro c hc
  simpa using h c hc

theorem runBot_aux (T : String) :
    ∀ (gs : List String) (b : BotInstance),
      T ∈ b.possibleAnswers →
      (∀ c ∈ b.constraints, getPattern c.guess T = c.pattern) →
      T ∈ (gs.foldl (fun b g => updateBotState b g (getPattern g T)) b).possibleAnswers := by
  intro gs
  induction gs with
  | nil => intro b hmem _; simpa using hmem
  | cons g gs ih =>
    intro b hmem hcons
    rw [List.foldl_cons]
    apply ih
    · show T ∈ filterPossibleAnswers b.possibleAnswers (b.constraints ++ [⟨g, getPattern g T⟩])
      rw [filterPossibleAnswers, List.mem_filter]
      refine ⟨hmem, matchesConstraints_of_true ?_⟩
      intro c hc
      rcases List.mem_append.mp hc with h1 | h2
      · exact hcons c h1
      · have : c = ⟨g, getPattern g T⟩ := by simpa using h2
        subst this
        rfl
    · show ∀ c ∈ b.constraints ++ [(⟨g, getPattern g T⟩ : Constraint)], _
      intro c hc
      rcases List.mem_append.mp hc with h1 | h2
      · exact hcons c h1
      · have : c = ⟨g, getPattern g T⟩ := by simpa using h2
        subst this
        rfl

/-- C8: for every target T in the answer list and every difficulty, starting
from createBotInstance and repeatedly applying updateBotState with any guess
together with its true pattern getPattern(guess, T), the target T is never
eliminated from possibleAnswers. -/
theorem C8_filter_keeps_target (answers0 : List String) (difficulty T : String)
    (gs : List String) (hT : T ∈ answers0) :
    T ∈ (runBot answers0 difficulty T gs).possibleAnswers := by
  rw [runBot]
  apply runBot_aux
  · simpa [createBotInstance] using hT
  · intro c hc
    simp [createBotInstance] at hc

/-- Witness for C8: a concrete two-word answer list, target CRANE, after a
SLATE guess. -/
theorem C8_filter_keeps_target_witness :
    "CRANE" ∈ (runBot ["CRANE", "SLATE"] "hard" "CRANE" ["SLATE"]).possibleAnswers :=
  C8_filter_keeps_target ["CRANE", "SLATE"] "hard" "CRANE" ["SLATE"] (by decide)

/-- Embedding of BotService.COMMON_WORDS (MatchmakingService.js lines
240-898) in source insertion order; the source builds a Set from this array
literal (no duplicates occur, so Array.from recovers exactly this order).
Note the three non-5-letter entries HERO, LIVING and SHOT, present verbatim
in the source. -/
def COMMON_WORDS : List String := [
  "ABOUT", "ABOVE", "ABUSE", "ACTOR", "ACUTE", "ADMIT", "ADOPT", "ADULT",
  "AFTER", "AGAIN", "AGENT", "AGREE", "AHEAD", "ALARM", "ALBUM", "ALERT",
  "ALIKE", "ALIVE", "ALLOW", "ALONE", "ALONG", "ALTER", "AMONG", "ANGER",
  "ANGLE", "ANGRY", "APART", "APPLE", "APPLY", "ARENA", "ARGUE", "ARISE",
  "ARMED", "ARMOR", "ARRAY", "ASIDE", "ASSET", "AVOID", "AWARD", "AWARE",
  "BADLY", "BAKER", "BASES", "BASIC", "BASIN", "BASIS", "BEACH", "BEGAN",
  "BEGIN", "BEGUN", "BEING", "BELOW", "BENCH", "BIBLE", "BIRTH", "BLACK",
  "BLADE", "BLAME", "BLANK", "BLAST", "BLEND", "BLESS", "BLIND", "BLOCK",
  "BLOOD", "BLOOM", "BLOWN", "BOARD", "BOOST", "BOOTH", "BOUND", "BRAIN",
  "BRAND", "BREAD", "BREAK", "BREED", "BRICK", "BRIDE", "BRIEF", "BRING",
  "BROAD", "BROKE", "BROWN", "BUILD", "BUILT", "BUNCH", "BURST", "BUYER",
  "CABLE", "CANDY", "CARRY", "CATCH", "CAUSE", "CHAIN", "CHAIR", "CHAOS",
  "CHARM", "CHART", "CHASE", "CHEAP", "CHECK", "CHEST", "CHIEF", "CHILD",
  "CHINA", "CHOSE", "CIVIL", "CLAIM", "CLASS", "CLEAN", "CLEAR", "CLIMB",
  "CLOCK", "CLOSE", "CLOTH", "CLOUD", "COACH", "COAST", "COULD", "COUNT",
  "COURT", "COVER", "CRAFT", "CRASH", "CRAZY", "CREAM", "CRIME", "CROSS",
  "CROWD", "CROWN", "CURVE", "CYCLE", "DAILY", "DANCE", "DATED", "DEALT",
  "DEATH", "DEBUT", "DELAY", "DEPTH", "DOING", "DOUBT", "DOZEN", "DRAFT",
  "DRAIN", "DRAMA", "DRANK", "DRAWN", "DREAM", "DRESS", "DRIED", "DRINK",
  "DRIVE", "DROVE", "DYING", "EAGER", "EARLY", "EARTH", "EIGHT", "ELITE",
  "EMPTY", "ENEMY", "ENJOY", "ENTER", "ENTRY", "EQUAL", "ERROR", "EVENT",
  "EVERY", "EXACT", "EXIST", "EXTRA", "FAITH", "FALSE", "FAULT", "FAVOR",
  "FENCE", "FEVER", "FIBER", "FIELD", "FIFTH", "FIFTY", "FIGHT", "FINAL",
  "FIRST", "FIXED", "FLASH", "FLEET", "FLESH", "FLOAT", "FLOOD", "FLOOR",
  "FLOUR", "FLUID", "FOCUS", "FORCE", "FORGE", "FORTH", "FORTY", "FORUM",
  "FOUND", "FRAME", "FRANK", "FRAUD", "FRESH", "FRONT", "FRUIT", "FULLY",
  "FUNNY", "GIANT", "GIVEN", "GLASS", "GLOBE", "GLORY", "GOING", "GRACE",
  "GRADE", "GRAIN", "GRAND", "GRANT", "GRAPE", "GRASP", "GRASS", "GRAVE",
  "GREAT", "GREEN", "GREET", "GRIEF", "GRILL", "GROSS", "GROUP", "GROVE",
  "GROWN", "GUARD", "GUESS", "GUEST", "GUIDE", "GUILT", "HAPPY", "HARSH",
  "HEART", "HEAVY", "HENCE", "HERO", "HORSE", "HOTEL", "HOUSE", "HUMAN",
  "IDEAL", "IMAGE", "IMPLY", "INDEX", "INNER", "INPUT", "ISSUE", "JOINT",
  "JONES", "JUDGE", "JUICE", "KNOWN", "LABEL", "LABOR", "LARGE", "LASER",
  "LATER", "LAUGH", "LAYER", "LEARN", "LEASE", "LEAST", "LEAVE", "LEGAL",
  "LEMON", "LEVEL", "LIGHT", "LIMIT", "LINUX", "LIVER", "LIVING", "LOCAL",
  "LODGE", "LOGIC", "LOOSE", "LORRY", "LOSER", "LOWER", "LUCKY", "LUNCH",
  "LYING", "MAGIC", "MAJOR", "MAKER", "MARCH", "MARRY", "MATCH", "MAYOR",
  "MEANT", "MEDAL", "MEDIA", "MERCY", "MERGE", "MERIT", "METAL", "METER",
  "MIGHT", "MINOR", "MINUS", "MIXED", "MODEL", "MONEY", "MONTH", "MORAL",
  "MOTOR", "MOUNT", "MOUSE", "MOUTH", "MOVED", "MOVIE", "MUSIC", "NAKED",
  "NEEDS", "NERVE", "NEVER", "NEWER", "NIGHT", "NOISE", "NORTH", "NOTED",
  "NOVEL", "NURSE", "OCCUR", "OCEAN", "OFFER", "OFTEN", "OLIVE", "ONION",
  "OPERA", "ORBIT", "ORDER", "ORGAN", "OTHER", "OUGHT", "OUTER", "OWNED",
  "OWNER", "OXIDE", "OZONE", "PAINT", "PANEL", "PANIC", "PAPER", "PARTY",
  "PASTA", "PATCH", "PAUSE", "PEACE", "PEARL", "PENNY", "PHASE", "PHONE",
  "PHOTO", "PIANO", "PIECE", "PILOT", "PINCH", "PITCH", "PLACE", "PLAIN",
  "PLANE", "PLANT", "PLATE", "PLAZA", "POINT", "POLAR", "POUND", "POWER",
  "PRESS", "PRICE", "PRIDE", "PRIME", "PRINT", "PRIOR", "PRIZE", "PROBE",
  "PROOF", "PROUD", "PROVE", "PUNCH", "PUPIL", "QUEEN", "QUEST", "QUICK",
  "QUIET", "QUITE", "QUOTA", "QUOTE", "RADAR", "RADIO", "RAISE", "RANCH",
  "RANGE", "RAPID", "RATIO", "REACH", "REACT", "READY", "REALM", "REBEL",
  "REFER", "REIGN", "RELAX", "REPLY", "RIDER", "RIDGE", "RIFLE", "RIGHT",
  "RIGID", "RISKY", "RIVAL", "RIVER", "ROBOT", "ROCKY", "ROMAN", "ROUGH",
  "ROUND", "ROUTE", "ROYAL", "RUGBY", "RULER", "RURAL", "SADLY", "SAINT",
  "SALAD", "SALES", "SANDY", "SAUCE", "SAVED", "SCALE", "SCENE", "SCOPE",
  "SCORE", "SENSE", "SERVE", "SEVEN", "SHADE", "SHAKE", "SHALL", "SHAME",
  "SHAPE", "SHARE", "SHARP", "SHEEP", "SHEER", "SHEET", "SHELF", "SHELL",
  "SHIFT", "SHINE", "SHIRT", "SHOCK", "SHOOT", "SHORE", "SHORT", "SHOT",
  "SHOUT", "SHOWN", "SIGHT", "SIGMA", "SILLY", "SINCE", "SIXTH", "SIXTY",
  "SIZED", "SKILL", "SKIRT", "SLAVE", "SLEEP", "SLICE", "SLIDE", "SLOPE",
  "SMALL", "SMART", "SMELL", "SMILE", "SMITH", "SMOKE", "SNAKE", "SOLID",
  "SOLVE", "SORRY", "SOUND", "SOUTH", "SPACE", "SPARE", "SPARK", "SPEAK",
  "SPEED", "SPELL", "SPEND", "SPENT", "SPICE", "SPINE", "SPLIT", "SPOKE",
  "SPORT", "SPRAY", "SQUAD", "STACK", "STAFF", "STAGE", "STAKE", "STAMP",
  "STAND", "STARK", "START", "STATE", "STEAM", "STEEL", "STEEP", "STEER",
  "STICK", "STILL", "STOCK", "STONE", "STOOD", "STORE", "STORM", "STORY",
  "STRAP", "STRAW", "STRIP", "STUCK", "STUDY", "STUFF", "STYLE", "SUGAR",
  "SUITE", "SUNNY", "SUPER", "SURGE", "SWEET", "SWEPT", "SWIFT", "SWING",
  "SWISS", "SWORD", "TABLE", "TAKEN", "TASTE", "TAXES", "TEACH", "TEETH",
  "TEMPO", "TENDS", "TENOR", "TENSE", "TENTH", "TERMS", "TERRY", "TEXAS",
  "THANK", "THEFT", "THEIR", "THEME", "THERE", "THESE", "THICK", "THING",
  "THINK", "THIRD", "THOSE", "THREE", "THREW", "THROW", "THUMB", "TIGER",
  "TIGHT", "TIRED", "TITLE", "TODAY", "TOKEN", "TOPIC", "TOTAL", "TOUCH",
  "TOUGH", "TOWER", "TRACK", "TRADE", "TRAIL", "TRAIN", "TRAIT", "TRASH",
  "TREAT", "TREND", "TRIAL", "TRIBE", "TRICK", "TRIED", "TROOP", "TRUCK",
  "TRULY", "TRUNK", "TRUST", "TRUTH", "TUMOR", "TWICE", "ULTRA", "UNCLE",
  "UNDER", "UNION", "UNITE", "UNITY", "UNTIL", "UPPER", "UPSET", "URBAN",
  "USUAL", "VALID", "VALUE", "VIDEO", "VIRUS", "VISIT", "VITAL", "VOCAL",
  "VOICE", "VOTER", "WAGON", "WASTE", "WATCH", "WATER", "WEIGH", "WEIRD",
  "WHEAT", "WHEEL", "WHERE", "WHICH", "WHILE", "WHITE", "WHOLE", "WHOSE",
  "WOMAN", "WOMEN", "WORLD", "WORRY", "WORSE", "WORST", "WORTH", "WOULD",
  "WOUND", "WRITE", "WRONG", "WROTE", "YIELD", "YOUNG", "YOUTH", "ZEBRA",
  "ZONES"]

/-- Embedding of BotService.OPTIMAL_FIRST_GUESSES. -/
def OPTIMAL_FIRST_GUESSES : List String := ["SALET", "CRANE", "SLATE", "TRACE", "CRATE"]

/-- Difficulty configuration record (BotService.DIFFICULTIES entries).
topN = none encodes the source's null (greedy/random easy mode);
wasteWordChance = none encodes the absent key for impossible/hard. -/
structure DiffConfig where
  topN : Option Nat
  useCommonFilter : Bool
  minSolveGuess : Nat
  delayMin : Nat
  delayMax : Nat
  noise : ℝ
  wasteWordChance : Option ℝ

/-- Embedding of BotService.DIFFICULTIES. -/
def DIFFICULTIES : List (String × DiffConfig) :=
  [("impossible", ⟨some 1, false, 1, 10000, 20000, 0, none⟩),
   ("hard", ⟨some 5, false, 2, 18000, 22000, 0.05, none⟩),
   ("medium", ⟨some 20, true, 3, 22000, 30000, 0.1, some 0.1⟩),
   ("easy", ⟨none, true, 4, 30000, 35000, 0.2, some 0.2⟩)]

/-- Lookup DIFFICULTIES[difficulty] || DIFFICULTIES.medium (selectGuess and
getNextGuess both start this way). -/
def difficultyConfig (difficulty : String) : DiffConfig :=
  ((DIFFICULTIES.find? (fun p => p.1 == difficulty)).map Prod.snd).getD
    ⟨some 20, true, 3, 22000, 30000, 0.1, some 0.1⟩

/-- Oracle for the Math.random() draws of one selectGuess call.  Each call
site of Math.random() gets its own component, so quantifying over the oracle
covers every sequence of draws: an index pick Math.floor(Math.random() * n)
is modelled as (component % n), a raw roll as an arbitrary real. -/
structure RandChoices where
  firstIdx : Nat
  pairIdx : Nat
  easyPoolIdx : Nat
  easyWasteRoll : ℝ
  medWasteRoll : ℝ
  sampleIdx : Nat → Nat
  noiseRoll : String → ℝ
  commonPickIdx : Nat
  topPickIdx : Nat
  wasteIdx1 : Nat
  wasteIdx2 : Nat
  wasteIdx3 : Nat
  wasteIdx4 : Nat
  wasteIdx5 : Nat
  wasteIdx6 : Nat

/-- The source's pool[Math.floor(Math.random() * pool.length)] pick: an
arbitrary index taken modulo the pool length (same support for a nonempty
pool; the source would yield undefined on an empty pool, here the default). -/
def randPick {α : Type} [Inhabited α] (l : List α) (i : Nat) : α :=
  l.getD (i % l.length) default

/-- Number of distinct letters of a word (new Set(word).size in
chooseWasteWord's comparator). -/
def uniqueLetters (w : String) : Nat :=
  w.data.dedup.length

/-- Embedding of BotService.chooseWasteWord: restrict the valid guesses to
common words when asked, keep only words satisfying the constraints (falling
back to all valid guesses if none survive), sort descending by distinct
letters, and pick among the top 50. -/
def chooseWasteWord (validGuesses : List String) (constraints : List Constraint)
    (useCommonFilter : Bool) (idx : Nat) : String :=
  let pool0 :=
    if useCommonFilter then validGuesses.filter (fun w => decide (w ∈ COMMON_WORDS))
    else validGuesses
  let pool1 := filterPossibleAnswers pool0 constraints
  let pool2 := if pool1.length = 0 then validGuesses else pool1
  let sorted := pool2.mergeSort (fun a b => decide (uniqueLetters b ≤ uniqueLetters a))
  randPick (sorted.take (min 50 sorted.length)) idx

/-- Embedding of BotService.calculateEntropy: Shannon entropy of the
partition of the remaining answers by the pattern they produce against the
guess. -/
noncomputable def calculateEntropy (guess : String) (possibleAnswers : List String) : ℝ :=
  if possibleAnswers.length = 0 ∨ possibleAnswers.length = 1 then 0
  else
    let patterns := possibleAnswers.map (fun a => getPattern guess a)
    let total : ℝ := (possibleAnswers.length : ℝ)
    let contribs := patterns.dedup.map (fun p =>
      ((patterns.count p : ℝ) / total) * Real.logb 2 ((patterns.count p : ℝ) / total))
    0 - contribs.sum

/-- One scored candidate of getBestGuessesByEntropy. -/
structure Score where
  word : String
  entropy : ℝ

instance : Inhabited Score := ⟨⟨"", 0⟩⟩

/-- Embedding of BotService.getBestGuessesByEntropy: score every candidate
(entropy plus, when the noise amplitude is nonzero, a (roll − 0.5)·noise
term), sort descending and keep the top N. -/
noncomputable def getBestGuessesByEntropy (possibleAnswers validGuesses : List String)
    (topN : Nat) (noiseAmp : ℝ) (o : RandChoices) : List Score :=
  let scores := validGuesses.map (fun g =>
    { word := g
      entropy := calculateEntropy g possibleAnswers +
        (if noiseAmp = 0 then 0 else (o.noiseRoll g - 1/2) * noiseAmp) : Score })
  (scores.mergeSort (fun a b => decide (b.entropy ≤ a.entropy))).take topN

/-- One iteration of the candidate-diversification loop of selectGuess: draw
a random valid guess and append it unless already present. -/
def sampleStep (allValidGuesses : List String) (o : RandChoices)
    (acc : List String) (i : Nat) : List String :=
  if allValidGuesses.getD (o.sampleIdx i % allValidGuesses.length) "" ∈ acc then acc
  else acc ++ [allValidGuesses.getD (o.sampleIdx i % allValidGuesses.length) ""]

/-- The candidate-diversification loop of selectGuess: up to 500 randomly
indexed valid guesses appended to the filtered answers, skipping duplicates. -/
def sampleCandidates (allValidGuesses : List String) (o : RandChoices)
    (init : List String) : List String :=
  (List.range (min 500 allValidGuesses.length)).foldl
    (sampleStep allValidGuesses o) init

/-- The JS guard config.wasteWordChance && Math.random() < config.wasteWordChance:
false when the key is absent or zero (falsy), else a comparison of the roll. -/
noncomputable def wasteTriggered (chance : Option ℝ) (roll : ℝ) : Bool :=
  match chance with
  | none => false
  | some c => decide (¬ c = 0) && decide (roll < c)

/-- The common-word restriction applied to the remaining answers at the top
of selectGuess, with its empty-filter fallback. -/
def commonFiltered (useCommonFilter : Bool) (possibleAnswers : List String) :
    List String :=
  if useCommonFilter then
    let f := possibleAnswers.filter (fun w => decide (w ∈ COMMON_WORDS))
    if f.length = 0 then possibleAnswers else f
  else possibleAnswers

/-- Embedding of BotService.selectGuess (MatchmakingService.js lines
1080-1208), difficulty-parameterized guess selection.  allValidGuesses stands
for WordService.getAllValidGuesses() (data file not in the snapshot). -/
noncomputable def selectGuess (allValidGuesses : List String) (o : RandChoices)
    (difficulty : String) (possibleAnswers : List String)
    (constraints : List Constraint) (guessNumber : Nat) : String :=
  let config := difficultyConfig difficulty
  let filteredAnswers := commonFiltered config.useCommonFilter possibleAnswers
  if guessNumber = 1 ∧ constraints.length = 0 then
    if difficulty = "easy" then randPick COMMON_WORDS o.firstIdx
    else randPick OPTIMAL_FIRST_GUESSES o.firstIdx
  else if filteredAnswers.length = 1 then
    if guessNumber < config.minSolveGuess then
      chooseWasteWord allValidGuesses constraints config.useCommonFilter o.wasteIdx1
    else filteredAnswers.getD 0 ""
  else if filteredAnswers.length = 2 then
    if guessNumber < config.minSolveGuess then
      chooseWasteWord allValidGuesses constraints config.useCommonFilter o.wasteIdx2
    else randPick filteredAnswers o.pairIdx
  else if difficulty = "easy" ∨ config.topN = none then
    let pool := if filteredAnswers.length ≠ 0 then filteredAnswers else possibleAnswers
    let guess0 := randPick pool o.easyPoolIdx
    let guess1 :=
      if wasteTriggered config.wasteWordChance o.easyWasteRoll then
        chooseWasteWord allValidGuesses constraints true o.wasteIdx3
      else guess0
    if guessNumber < config.minSolveGuess then
      chooseWasteWord allValidGuesses constraints true o.wasteIdx4
    else guess1
  else
    let candidates := sampleCandidates allValidGuesses o filteredAnswers
    let topGuesses := getBestGuessesByEntropy filteredAnswers candidates
        (config.topN.getD 10) config.noise o
    let commonMatches := topGuesses.filter (fun s => decide (s.word ∈ COMMON_WORDS))
    if config.useCommonFilter ∧ commonMatches.length ≠ 0 then
      (randPick commonMatches o.commonPickIdx).word
    else if difficulty = "impossible" then (topGuesses.getD 0 default).word
    else
      let guess0 := (randPick topGuesses o.topPickIdx).word
      let guess1 :=
        if wasteTriggered config.wasteWordChance o.medWasteRoll then
          chooseWasteWord allValidGuesses constraints config.useCommonFilter o.wasteIdx5
        else guess0
      if guessNumber < config.minSolveGuess ∧ guess1 ∈ filteredAnswers then
        chooseWasteWord allValidGuesses constraints config.useCommonFilter o.wasteIdx6
      else guess1

/-- A random pick from a nonempty pool is a member of the pool. -/
theorem randPick_mem {α : Type} [Inhabited α] (l : List α) (i : Nat) (h : l ≠ []) :
    randPick l i ∈ l := by
  rw [randPick]
  have hlen : 0 < l.length := List.length_pos.mpr h
  have hlt : i % l.length < l.length := Nat.mod_lt _ hlen
  rw [List.getD_eq_getElem l default hlt]
  exact List.getElem_mem hlt

/-! ### MatchmakingService.createBotOpponent -/

/-- The bot player object built by MatchmakingService.createBotOpponent;
the id is bot_ followed by a fresh uuid (passed as a parameter). -/
structure BotOpponent where
  id : String
  username : String
  elo : Int
  socketId : Option String
  isBot : Bool
  botDifficulty : String
deriving Repr

/-- Embedding of MatchmakingService.createBotOpponent
(MatchmakingService.js lines 157-187): rating-keyed difficulty table. -/
def createBotOpponent (playerElo : Int) (uuid : String) : BotOpponent :=
  if playerElo < 900 then
    ⟨"bot_" ++ uuid, "WordBot Easy", 800, none, true, "easy"⟩
  else if playerElo < 1200 then
    ⟨"bot_" ++ uuid, "WordBot Medium", 1100, none, true, "medium"⟩
  else if playerElo < 1500 then
    ⟨"bot_" ++ uuid, "WordBot Hard", 1400, none, true, "hard"⟩
  else
    ⟨"bot_" ++ uuid, "WordBot Impossible", 1800, none, true, "impossible"⟩

/-- The oracle whose first-guess index selects position 243 of COMMON_WORDS,
which is the four-letter entry HERO. -/
def oracleHero : RandChoices :=
  { firstIdx := 243
    pairIdx := 0
    easyPoolIdx := 0
    easyWasteRoll := 0
    medWasteRoll := 0
    sampleIdx := fun _ => 0
    noiseRoll := fun _ => 0
    commonPickIdx := 0
    topPickIdx := 0
    wasteIdx1 := 0
    wasteIdx2 := 0
    wasteIdx3 := 0
    wasteIdx4 := 0
    wasteIdx5 := 0
    wasteIdx6 := 0 }

set_option maxRecDepth 20000 in
/-- C7 (code bug): the first guess of an easy bot is drawn uniformly from the
raw COMMON_WORDS array, which contains the four-letter entry HERO (and also
LIVING and SHOT); with the draw landing on index 243 the bot emits HERO,
a word of length 4 — no member of the valid-guess set (arrays of 5-letter
strings per the spec) can equal it, for any dictionary and any remaining
answers.  The claim that every selectGuess output lies in the valid-guess
set is therefore violated by the code on the easy first guess. -/
theorem C7_easy_first_guess_not_valid :
    (∀ (V pa : List String), selectGuess V oracleHero "easy" pa [] 1 = "HERO") ∧
    ("HERO" : String).length = 4 := by
  constructor
  · intro V pa
    show (if ("easy" : String) = "easy" then randPick COMMON_WORDS oracleHero.firstIdx
          else randPick OPTIMAL_FIRST_GUESSES oracleHero.firstIdx) = "HERO"
    rw [if_pos rfl]
    decide
  · decide

/-- C9: on matchmaking timeout, createBotOpponent maps the player rating to
(difficulty, bot rating) exactly per the table (< 900 easy/800, 900-1199
medium/1100, 1200-1499 hard/1400, at least 1500 impossible/1800); and for any
non-easy difficulty the first guess (guess number 1, no constraints) of
selectGuess is a member of the opener set OPTIMAL_FIRST_GUESSES
= {SALET, CRANE, SLATE, TRACE, CRATE}. -/
theorem C9_bot_spawn_table :
    (∀ (elo : Int) (u : String),
      (elo < 900 →
        (createBotOpponent elo u).botDifficulty = "easy" ∧ (createBotOpponent elo u).elo = 800) ∧
      (900 ≤ elo → elo < 1200 →
        (createBotOpponent elo u).botDifficulty = "medium" ∧ (createBotOpponent elo u).elo = 1100) ∧
      (1200 ≤ elo → elo < 1500 →
        (createBotOpponent elo u).botDifficulty = "hard" ∧ (createBotOpponent elo u).elo = 1400) ∧
      (1500 ≤ elo →
        (createBotOpponent elo u).botDifficulty = "impossible" ∧ (createBotOpponent elo u).elo = 1800)) ∧
    (∀ (V pa : List String) (o : RandChoices) (d : String), d ≠ "easy" →
      selectGuess V o d pa [] 1 ∈ OPTIMAL_FIRST_GUESSES) := by
  constructor
  · intro elo u
    refine ⟨?_, ?_, ?_, ?_⟩
    · intro h1
      rw [createBotOpponent, if_pos h1]
      exact ⟨rfl, rfl⟩
    · intro h1 h2
      rw [createBotOpponent, if_neg (by omega), if_pos h2]
      exact ⟨rfl, rfl⟩
    · intro h1 h2
      rw [createBotOpponent, if_neg (by omega), if_neg (by omega), if_pos h2]
      exact ⟨rfl, rfl⟩
    · intro h1
      rw [createBotOpponent, if_neg (by omega), if_neg (by omega), if_neg (by omega)]
      exact ⟨rfl, rfl⟩
  · intro V pa o d hd
    show (if d = "easy" then randPick COMMON_WORDS o.firstIdx
          else randPick OPTIMAL_FIRST_GUESSES o.firstIdx) ∈ OPTIMAL_FIRST_GUESSES
    rw [if_neg hd]
    exact randPick_mem _ _ (by decide)

/-- Witness for C9: a rating-1350 player gets a hard bot rated 1400, and a
hard bot's first guess lies in the opener set. -/
theorem C9_bot_spawn_table_witness :
    ((createBotOpponent 1350 "u1").botDifficulty = "hard" ∧
      (createBotOpponent 1350 "u1").elo = 1400) ∧
    selectGuess [] oracleHero "hard" [] [] 1 ∈ OPTIMAL_FIRST_GUESSES :=
  ⟨(C9_bot_spawn_table.1 1350 "u1").2.2.1 (by norm_num) (by norm_num),
   C9_bot_spawn_table.2 [] [] oracleHero "hard" (by decide)⟩

/-! ### EloService (src/unnamed/part_000) -/

/-- JS Math.round: round half toward positive infinity. -/
noncomputable def jsRound (x : ℝ) : ℤ := ⌊x + 1/2⌋

/-- EloService.MIN_RATING, the rating floor. -/
def MIN_RATING : Int := 100

/-- Embedding of EloService.calculateExpectedScore:
E = 1 / (1 + 10 ^ ((opponent − player) / 400)). -/
noncomputable def calculateExpectedScore (playerRating opponentRating : ℝ) : ℝ :=
  1 / (1 + (10 : ℝ) ^ ((opponentRating - playerRating) / 400))

/-- Embedding of EloService.calculateNewRating:
round(current + K·(S − E)) floored at MIN_RATING. -/
noncomputable def calculateNewRating (currentRating : Int)
    (expectedScore actualScore kFactor : ℝ) : Int :=
  max (jsRound ((currentRating : ℝ) + kFactor * (actualScore - expectedScore))) MIN_RATING

/-- The oldRating/newRating/delta record returned for each player by
EloService.calculateMatchResult and updateRatingAfterBotMatch. -/
structure RatingChange where
  oldRating : Int
  newRating : Int
  delta : Int
deriving DecidableEq, Repr

/-- Embedding of EloService.calculateMatchResult (winner scored 1, loser 0,
K = 32). -/
noncomputable def calculateMatchResult (winnerRating loserRating : Int) :
    RatingChange × RatingChange :=
  let winnerExpected := calculateExpectedScore (winnerRating : ℝ) (loserRating : ℝ)
  let loserExpected := calculateExpectedScore (loserRating : ℝ) (winnerRating : ℝ)
  let winnerNewRating := calculateNewRating winnerRating winnerExpected 1 32
  let loserNewRating := calculateNewRating loserRating loserExpected 0 32
  (⟨winnerRating, winnerNewRating, winnerNewRating - winnerRating⟩,
   ⟨loserRating, loserNewRating, loserNewRating - loserRating⟩)

/-- The BOT_RATINGS table of EloService.updateRatingAfterBotMatch. -/
def BOT_RATINGS : List (String × Int) :=
  [("easy", 800), ("medium", 1100), ("hard", 1400), ("impossible", 1800)]

/-- BOT_RATINGS[botDifficulty] || BOT_RATINGS.medium. -/
def botRatingFor (botDifficulty : Option String) : Int :=
  match botDifficulty with
  | none => 1100
  | some s => ((BOT_RATINGS.find? (fun p => p.1 == s)).map Prod.snd).getD 1100

/-- The pure rating computation inside EloService.updateRatingAfterBotMatch:
bot rating from the table, K halved to 16, S = 1 if the player won else 0
(the function has no draw case). -/
noncomputable def updateRatingAfterBotMatchCalc (playerRating : Int)
    (playerWon : Bool) (botDifficulty : Option String) : RatingChange :=
  let botRating := botRatingFor botDifficulty
  let botMatchKFactor : ℝ := 32 * 0.5
  let expectedScore := calculateExpectedScore (playerRating : ℝ) (botRating : ℝ)
  let actualScore : ℝ := if playerWon then 1 else 0
  let newRating := calculateNewRating playerRating expectedScore actualScore botMatchKFactor
  ⟨playerRating, newRating, newRating - playerRating⟩

theorem expectedScore_self (r : ℝ) : calculateExpectedScore r r = 1 / 2 := by
  rw [calculateExpectedScore, sub_self, zero_div, Real.rpow_zero]
  norm_num

theorem expectedScore_sum (r o : ℝ) :
    calculateExpectedScore r o + calculateExpectedScore o r = 1 := by
  rw [calculateExpectedScore, calculateExpectedScore]
  have hx : (r - o) / 400 = -((o - r) / 400) := by ring
  rw [hx, Real.rpow_neg (by norm_num)]
  have ha : (0 : ℝ) < (10 : ℝ) ^ ((o - r) / 400) :=
    Real.rpow_pos_of_pos (by norm_num) _
  have h1 : (1 : ℝ) + (10 : ℝ) ^ ((o - r) / 400) ≠ 0 := by positivity
  have h2 : (1 : ℝ) + ((10 : ℝ) ^ ((o - r) / 400))⁻¹ ≠ 0 := by positivity
  field_simp
  ring

theorem jsRound_eq {x : ℝ} {n : Int} (h1 : (n : ℝ) ≤ x + 1/2) (h2 : x + 1/2 < n + 1) :
    jsRound x = n := by
  rw [jsRound]
  exact Int.floor_eq_iff.mpr ⟨h1, h2⟩

theorem calculateMatchResult_100_100 :
    calculateMatchResult 100 100 = (⟨100, 116, 16⟩, ⟨100, 100, 0⟩) := by
  simp only [calculateMatchResult, calculateNewRating, expectedScore_self]
  have e1 : ((100 : Int) : ℝ) + 32 * (1 - 1/2) = 116 := by norm_num
  have e2 : ((100 : Int) : ℝ) + 32 * (0 - 1/2) = 84 := by norm_num
  rw [e1, e2, jsRound_eq (n := 116) (by norm_num) (by norm_num),
    jsRound_eq (n := 84) (by norm_num) (by norm_num)]
  rw [MIN_RATING]
  norm_num

/-- C6 counterexample: at pre-match ratings (100, 100) the winner moves to
116 while the loser is clamped at the floor 100, so the rating sum grows by
16, violating the claimed ±2 bound. -/
theorem C6_rating_sum_counterexample :
    ¬ (|((calculateMatchResult 100 100).1.newRating +
          (calculateMatchResult 100 100).2.newRating) - (100 + 100)| ≤ 2) := by
  rw [calculateMatchResult_100_100]
  decide

/-- C6 amended: whenever neither rounded new rating falls below the floor
MIN_RATING (so no clamping occurs), the rating sum is preserved within ±2
(in fact within ±1). -/
theorem C6_rating_sum_preserved (rW rL : Int)
    (hw : MIN_RATING ≤ jsRound ((rW : ℝ) +
      32 * (1 - calculateExpectedScore (rW : ℝ) (rL : ℝ))))
    (hl : MIN_RATING ≤ jsRound ((rL : ℝ) +
      32 * (0 - calculateExpectedScore (rL : ℝ) (rW : ℝ)))) :
    |((calculateMatchResult rW rL).1.newRating +
       (calculateMatchResult rW rL).2.newRating) - (rW + rL)| ≤ 2 := by
  simp only [calculateMatchResult, calculateNewRating]
  rw [max_eq_left hw, max_eq_left hl]
  set a : ℝ := (rW : ℝ) + 32 * (1 - calculateExpectedScore (rW : ℝ) (rL : ℝ)) with ha
  set b : ℝ := (rL : ℝ) + 32 * (0 - calculateExpectedScore (rL : ℝ) (rW : ℝ)) with hb
  have hsum : a + b = (rW : ℝ) + (rL : ℝ) := by
    rw [ha, hb]
    have := expectedScore_sum (rW : ℝ) (rL : ℝ)
    nlinarith [this]
  have hua : (jsRound a : ℝ) ≤ a + 1/2 := Int.floor_le _
  have hub : (jsRound b : ℝ) ≤ b + 1/2 := Int.floor_le _
  have hla : a + 1/2 < (jsRound a : ℝ) + 1 := Int.lt_floor_add_one _
  have hlb : b + 1/2 < (jsRound b : ℝ) + 1 := Int.lt_floor_add_one _
  have hup : ((jsRound a + jsRound b : Int) : ℝ) ≤ ((rW + rL : Int) : ℝ) + 1 := by
    push_cast
    push_cast at hua hub
    nlinarith [hsum]
  have hlo : ((rW + rL : Int) : ℝ) - 1 < ((jsRound a + jsRound b : Int) : ℝ) := by
    push_cast
    push_cast at hla hlb
    nlinarith [hsum]
  have hupz : jsRound a + jsRound b ≤ rW + rL + 1 := by exact_mod_cast hup
  have hloz : rW + rL - 1 < jsRound a + jsRound b := by exact_mod_cast hlo
  rw [abs_le]
  omega

/-- Witness for the amended C6 at the pair (1200, 1200): no clamping and the
sum is preserved within the bound. -/
theorem C6_rating_sum_preserved_witness :
    |((calculateMatchResult 1200 1200).1.newRating +
       (calculateMatchResult 1200 1200).2.newRating) - (1200 + 1200)| ≤ 2 := by
  refine C6_rating_sum_preserved 1200 1200 ?_ ?_
  · rw [expectedScore_self]
    have e : ((1200 : Int) : ℝ) + 32 * (1 - 1/2) = 1216 := by norm_num
    rw [e, jsRound_eq (n := 1216) (by norm_num) (by norm_num), MIN_RATING]
    norm_num
  · rw [expectedScore_self]
    have e : ((1200 : Int) : ℝ) + 32 * (0 - 1/2) = 1184 := by norm_num
    rw [e, jsRound_eq (n := 1184) (by norm_num) (by norm_num), MIN_RATING]
    norm_num

/-! ### Match state (GameService) and the game-end rating dispatch
(gameController.handleGameEnd / notifyGameEnd) -/

/-- A stored guess record (GameService.processGuess's guessRecord). -/
structure GuessRecord where
  word : String
  evaluation : List LetterColor
  timestamp : Nat
  guessNumber : Nat
deriving DecidableEq, Repr

/-- One replayLog entry: guess entries carry { playerId, type, data }, forfeit
entries carry { playerId, type, timestamp }; entryType holds the source's
type field. -/
structure ReplayEntry where
  playerId : String
  entryType : String
  data : Option GuessRecord
  timestamp : Option Nat
deriving DecidableEq, Repr

/-- One per-player slot of a stored game (GameService.createGame). -/
structure PlayerSlot where
  id : String
  username : String
  elo : Int
  socketId : Option String
  guesses : List GuessRecord
  isBot : Bool
  botDifficulty : Option String
deriving DecidableEq, Repr

/-- A stored match (GameService.createGame's gameState object); players is
the id-keyed object, winner the nullable winner id. -/
structure Game where
  id : String
  targetWord : String
  status : String
  startTime : Nat
  players : List (String × PlayerSlot)
  replayLog : List ReplayEntry
  winner : Option String
  endTime : Option Nat
deriving DecidableEq, Repr

/-- The eloResult value produced by handleGameEnd: a pvp result holds the
ratings pair of updateRatingsAfterMatch, a bot result the single player
record of updateRatingAfterBotMatch; none when no rating update ran. -/
inductive EloShape where
  | pvp (winner loser : RatingChange)
  | bot (player : RatingChange)
deriving DecidableEq, Repr

/-- Embedding of the rating dispatch of gameController.handleGameEnd
(gameController.js lines 599-643), restricted to its pure rating
computation: for a bot game the human player's rating is updated with
playerWon = (game.winner === humanPlayer.id); for a pvp game with both a
winner and a loser found, calculateMatchResult runs; otherwise (in
particular a pvp draw, where no player id equals the null winner) no
update runs.  The unreachable all-bot case is mapped to none (the source
would throw). -/
noncomputable def handleGameEndOutcome (game : Game) : Option EloShape :=
  let players := game.players.map Prod.snd
  let winnerP := players.find? (fun p => decide (some p.id = game.winner))
  let loserP := players.find? (fun p => decide (¬ some p.id = game.winner))
  let isBotGame := players.any (fun p => p.isBot)
  if isBotGame then
    match players.find? (fun p => !p.isBot), players.find? (fun p => p.isBot) with
    | some human, some bot =>
      some (EloShape.bot (updateRatingAfterBotMatchCalc human.elo
        (decide (game.winner = some human.id)) bot.botDifficulty))
    | _, _ => none
  else
    match winnerP, loserP with
    | some w, some l => some (EloShape.pvp (calculateMatchResult w.elo l.elo).1
        (calculateMatchResult w.elo l.elo).2)
    | _, _ => none

/-- The JS a || b on an optional delta: a JS 0 is falsy, an absent field is
undefined. -/
def jsOr (a b : Option Int) : Option Int :=
  match a with
  | some x => if x = 0 then b else some x
  | none => b

/-- The eloChange field of the game:end payload built by
gameController.notifyGameEnd for the player p:
eloResult ? (isWinner ? ratings?.winner?.delta || player?.delta
                      : ratings?.loser?.delta || player?.delta) : 0. -/
def eloChangeFor (game : Game) (eloResult : Option EloShape) (p : PlayerSlot) :
    Option Int :=
  match eloResult with
  | none => some 0
  | some shape =>
    let isWinner := game.winner = some p.id
    match shape with
    | EloShape.pvp w l =>
      if isWinner then jsOr (some w.delta) none else jsOr (some l.delta) none
    | EloShape.bot pl =>
      if isWinner then jsOr none (some pl.delta) else jsOr none (some pl.delta)

/-- The result field of the game:end payload:
game.winner === null ? 'draw' : (isWinner ? 'win' : 'loss'). -/
def resultFor (game : Game) (p : PlayerSlot) : String :=
  if game.winner = none then "draw"
  else if game.winner = some p.id then "win" else "loss"

/-- Six non-winning guesses (contents irrelevant to the rating dispatch). -/
def drawGuesses : List GuessRecord :=
  List.replicate 6 ⟨"SLATE", evaluateGuessS "SLATE" "CRANE", 1000, 1⟩

/-- The human slot of the drawn bot match: rating 1100, out of guesses. -/
def humanSlotDraw : PlayerSlot :=
  ⟨"h1", "alice", 1100, some "s1", drawGuesses, false, none⟩

/-- The medium bot slot (table rating 1100) of the drawn bot match. -/
def botSlotDraw : PlayerSlot :=
  ⟨"b1", "WordBot Medium", 1100, none, drawGuesses, true, some "medium"⟩

/-- A finished drawn human-vs-bot match: no winner, both players out of
guesses. -/
def drawBotGame : Game :=
  ⟨"g1", "CRANE", "finished", 0, [("h1", humanSlotDraw), ("b1", botSlotDraw)],
   [], none, some 5000⟩

/-- One human slot of the drawn pvp match. -/
def pvpSlot1 : PlayerSlot :=
  ⟨"p1", "bob", 1150, some "s2", drawGuesses, false, none⟩

/-- The other human slot of the drawn pvp match. -/
def pvpSlot2 : PlayerSlot :=
  ⟨"p2", "carol", 1160, some "s3", drawGuesses, false, none⟩

/-- A finished drawn human-vs-human match. -/
def drawPvpGame : Game :=
  ⟨"g2", "CRANE", "finished", 0, [("p1", pvpSlot1), ("p2", pvpSlot2)],
   [], none, some 5000⟩

theorem botMatchCalc_draw_1100_medium :
    updateRatingAfterBotMatchCalc 1100 false (some "medium") = ⟨1100, 1092, -8⟩ := by
  have hbot : botRatingFor (some "medium") = 1100 := rfl
  simp only [updateRatingAfterBotMatchCalc, calculateNewRating, hbot,
    expectedScore_self, Bool.false_eq_true, if_false]
  have e : ((1100 : Int) : ℝ) + 32 * 0.5 * (0 - 1/2) = 1092 := by norm_num
  rw [e, jsRound_eq (n := 1092) (by norm_num) (by norm_num), MIN_RATING]
  norm_num

/-- C5 (code bug): in a drawn bot match the source calls
updateRatingAfterBotMatch with playerWon = (game.winner === humanId) = false,
scoring the draw as a loss (the bot path has no S = 0.5 case): with a
1100-rated human against the medium bot (rating 1100) the human's persisted
rating drops from 1100 to 1092 and the emitted eloChange is −8, not the 0
required for a draw.  For a drawn human-vs-human match the claim holds: no
rating update runs and the emitted eloChange is 0. -/
theorem C5_draw_vs_bot_changes_rating :
    resultFor drawBotGame humanSlotDraw = "draw" ∧
    handleGameEndOutcome drawBotGame = some (EloShape.bot ⟨1100, 1092, -8⟩) ∧
    eloChangeFor drawBotGame (handleGameEndOutcome drawBotGame) humanSlotDraw =
      some (-8) ∧
    (-8 : Int) ≠ 0 ∧
    handleGameEndOutcome drawPvpGame = none ∧
    eloChangeFor drawPvpGame (handleGameEndOutcome drawPvpGame) pvpSlot1 = some 0 := by
  have h1 : handleGameEndOutcome drawBotGame =
      some (EloShape.bot (updateRatingAfterBotMatchCalc 1100 false (some "medium"))) := rfl
  have h2 : handleGameEndOutcome drawPvpGame = none := rfl
  rw [h1, botMatchCalc_draw_1100_medium, h2]
  refine ⟨rfl, rfl, rfl, by decide, rfl, rfl⟩

/-! ### The Redis-backed game state store and win lock
(src/server/src/config/redis.js) -/

/-- The value stored by acquireWinLock under game:id:winner. -/
structure WinClaim where
  playerId : String
  timestamp : Nat
deriving DecidableEq, Repr

/-- The Redis keyspace used by the game engine: game states under game:id
and win claims under game:id:winner.  SETEX overwrite is modelled by
shadowing: the most recent binding of a key is the one found. -/
structure Store where
  games : List (String × Game)
  locks : List (String × WinClaim)
deriving DecidableEq, Repr

/-- Embedding of getGameState. -/
def getGameState (s : Store) (gameId : String) : Option Game :=
  (s.games.find? (fun p => p.1 == gameId)).map Prod.snd

/-- Embedding of setGameState (the TTL argument is dropped; expiry is not
modelled). -/
def setGameState (s : Store) (gameId : String) (g : Game) : Store :=
  { s with games := (gameId, g) :: s.games }

/-- Lookup of the win-claim key game:id:winner. -/
def lockLookup (s : Store) (gameId : String) : Option WinClaim :=
  (s.locks.find? (fun p => p.1 == gameId)).map Prod.snd

/-- Embedding of acquireWinLock (redis.js lines 61-75): SET key NX — insert
the claim and return true iff no claim exists, else false with the store
unchanged.  The 60 s expiry is not modelled (the claims below concern the
instant of the race). -/
def acquireWinLock (s : Store) (gameId playerId : String) (now : Nat) :
    Bool × Store :=
  match lockLookup s gameId with
  | none => (true, { s with locks := (gameId, ⟨playerId, now⟩) :: s.locks })
  | some _ => (false, s)

/-- Embedding of getWinner: read the win-claim key. -/
def getWinner (s : Store) (gameId : String) : Option WinClaim :=
  lockLookup s gameId

/-! ### GameService.processGuess (GameService.js lines 108-227) -/

/-- GameService.MAX_GUESSES. -/
def MAX_GUESSES : Nat := 6

/-- GameService.GAME_STATES.ACTIVE. -/
def GAME_ACTIVE : String := "active"

/-- GameService.GAME_STATES.FINISHED. -/
def GAME_FINISHED : String := "finished"

/-- game.players[playerId] object access. -/
def lookupPlayer (game : Game) (playerId : String) : Option PlayerSlot :=
  (game.players.find? (fun p => p.1 == playerId)).map Prod.snd

/-- In-place mutation of one player slot of the keyed players object. -/
def updateSlot (ps : List (String × PlayerSlot)) (pid : String)
    (f : PlayerSlot → PlayerSlot) : List (String × PlayerSlot) :=
  ps.map (fun q => if q.1 = pid then (q.1, f q.2) else q)

/-- The winner info returned to the caller on a successful win claim. -/
structure WinnerInfo where
  playerId : String
  guessCount : Nat
  timeMs : Nat
deriving DecidableEq, Repr

/-- The result object of GameService.processGuess: either
{ success: false, error } or { success: true, guess, isCorrect, gameEnded,
winner, remainingGuesses }. -/
inductive GuessOutcome where
  | err (msg : String)
  | ok (guess : GuessRecord) (isCorrect : Bool) (gameEnded : Bool)
      (winner : Option WinnerInfo) (remainingGuesses : Nat)
deriving DecidableEq, Repr

/-- Whether the outcome is the success case. -/
def GuessOutcome.isOk : GuessOutcome → Bool
  | .err _ => false
  | .ok _ _ _ _ _ => true

/-- Appending the new guess record to the guesser's slot and to the replay
log (the two mutations of processGuess before the win check). -/
def applyGuess (game : Game) (playerId : String) (r : GuessRecord) : Game :=
  { game with
    players := updateSlot game.players playerId
      (fun sl => { sl with guesses := sl.guesses ++ [r] })
    replayLog := game.replayLog ++ [⟨playerId, "guess", some r, none⟩] }

/-- The win-check block of processGuess: on a correct guess try the win
lock; on success mark FINISHED with this player as winner; on failure adopt
the already-claimed winner when one is readable.  Returns the updated game,
the store after the lock call, the gameEnded flag and the winnerInfo. -/
def winPhase (s : Store) (gameId playerId : String) (now : Nat)
    (isCorrect : Bool) (guessCount : Nat) (game1 : Game) :
    Game × Store × Bool × Option WinnerInfo :=
  if isCorrect then
    match acquireWinLock s gameId playerId now with
    | (true, s1) =>
      ({ game1 with
          status := GAME_FINISHED
          winner := some playerId
          endTime := some now }, s1, true,
       some ⟨playerId, guessCount, now - game1.startTime⟩)
    | (false, s1) =>
      match getWinner s1 gameId with
      | some existing =>
        ({ game1 with
            status := GAME_FINISHED
            winner := some existing.playerId
            endTime := some existing.timestamp }, s1, true, none)
      | none => (game1, s1, false, none)
  else (game1, s, false, none)

/-- The draw-check block of processGuess: when the game has not ended and
every player has exhausted MAX_GUESSES, mark FINISHED with a null winner. -/
def drawPhase (game2 : Game) (now : Nat) (gameEnded : Bool) : Game × Bool :=
  if gameEnded then (game2, true)
  else if game2.players.all (fun q => decide (MAX_GUESSES ≤ q.2.guesses.length)) then
    ({ game2 with status := GAME_FINISHED, winner := none, endTime := some now },
     true)
  else (game2, false)

/-- Embedding of GameService.processGuess: load the game, validate (status,
membership, normalized word length, dictionary membership, remaining
guesses), record the guess, run the win check and the draw check, and write
the game back.  Every rejection returns the store unchanged (the source
returns before its setGameState call). -/
def processGuess (V : List String) (s : Store) (gameId playerId guess0 : String)
    (now : Nat) : Store × GuessOutcome :=
  match getGameState s gameId with
  | none => (s, .err "Game not found")
  | some game =>
    if game.status ≠ GAME_ACTIVE then (s, .err "Game is not active")
    else
      match lookupPlayer game playerId with
      | none => (s, .err "Player not in game")
      | some player =>
        let guess := trimS (toUpperS guess0)
        if guess.length ≠ 5 then (s, .err "Guess must be 5 letters")
        else if ¬ isValidGuess V guess then (s, .err "Not a valid word")
        else if MAX_GUESSES ≤ player.guesses.length then
          (s, .err "No guesses remaining")
        else
          let guessRecord : GuessRecord :=
            ⟨guess, evaluateGuessS guess game.targetWord, now,
             player.guesses.length + 1⟩
          let game1 := applyGuess game playerId guessRecord
          match winPhase s gameId playerId now
            (isCorrectGuess guess game.targetWord)
            (player.guesses.length + 1) game1 with
          | (game2, s1, ended1, winnerInfo) =>
            match drawPhase game2 now ended1 with
            | (game3, ended2) =>
              (setGameState s1 gameId game3,
               .ok guessRecord (isCorrectGuess guess game.targetWord) ended2
                 winnerInfo (MAX_GUESSES - (player.guesses.length + 1)))

/-- Embedding of GameService.forfeitGame (GameService.js lines 279-299):
return null without touching the store when the game is absent or not
ACTIVE; otherwise the other player becomes winner and a forfeit entry is
appended. -/
def forfeitGame (s : Store) (gameId forfeitPlayerId : String) (now : Nat) :
    Store × Option Game :=
  match getGameState s gameId with
  | none => (s, none)
  | some game =>
    if game.status ≠ GAME_ACTIVE then (s, none)
    else
      let winnerId := (game.players.map Prod.fst).find?
        (fun id => !(id == forfeitPlayerId))
      let game2 : Game :=
        { game with
          status := GAME_FINISHED
          winner := winnerId
          endTime := some now
          replayLog := game.replayLog ++
            [⟨forfeitPlayerId, "forfeit", none, some now⟩] }
      (setGameState s gameId game2, some game2)

/-! ### The masked opponent view (gameController.js lines 373-383,
GameService.getMaskedGuessForOpponent) -/

/-- The game:opponent:guess payload emitted by the game:guess handler:
colors and guess ordinal only. -/
structure OpponentGuessEvent where
  colors : List Color
  guessNumber : Nat
deriving DecidableEq, Repr

/-- The payload built at the masked emit site of the game:guess handler:
{ colors: evaluation.map(e => e.color), guessNumber }. -/
def opponentGuessEvent (r : GuessRecord) : OpponentGuessEvent :=
  ⟨r.evaluation.map LetterColor.color, r.guessNumber⟩

/-- The masked record of GameService.getMaskedGuessForOpponent (used by the
rejoin view): colors, timestamp and ordinal. -/
structure MaskedGuess where
  colors : List Color
  timestamp : Nat
  guessNumber : Nat
deriving DecidableEq, Repr

/-- Embedding of GameService.getMaskedGuessForOpponent. -/
def getMaskedGuessForOpponent (r : GuessRecord) : MaskedGuess :=
  ⟨r.evaluation.map LetterColor.color, r.timestamp, r.guessNumber⟩

/-- C10: when the stored match is absent or not ACTIVE (in particular when
it is already FINISHED), forfeitGame returns null and performs no write: the
store, including any recorded winner, is exactly unchanged. -/
theorem C10_forfeit_finished_no_write (s : Store) (gameId pid : String) (now : Nat)
    (h : (getGameState s gameId).all (fun g => decide (g.status ≠ GAME_ACTIVE)) = true) :
    forfeitGame s gameId pid now = (s, none) := by
  rw [forfeitGame]
  split
  · rfl
  · rename_i game heq
    rw [heq] at h
    simp only [Option.all_some, decide_eq_true_eq] at h
    rw [if_pos h]

/-- A finished pvp game with a recorded winner, for the C10 witness. -/
def doneGame : Game :=
  { drawPvpGame with winner := some "p1" }

/-- The store holding only the finished game, for the C10 witness. -/
def storeDone : Store := ⟨[("g2", doneGame)], []⟩

/-- Witness for C10: a later forfeit against the finished match g2 returns
null and leaves the store (with its recorded winner p1) unchanged. -/
theorem C10_forfeit_finished_no_write_witness :
    forfeitGame storeDone "g2" "p2" 999 = (storeDone, none) :=
  C10_forfeit_finished_no_write storeDone "g2" "p2" 999 (by decide)

theorem toUpperS_data_length (s : String) : (toUpperS s).data.length = s.length := by
  show (s.data.map Char.toUpper).length = s.data.length
  rw [List.length_map]

theorem evaluateGuessS_length (g t : String) (hg : g.length = 5) (ht : t.length = 5) :
    (evaluateGuessS g t).length = 5 := by
  rw [evaluateGuessS]
  apply evaluateGuess_length
  · rw [toUpperS_data_length, hg]
  · rw [toUpperS_data_length, ht]

theorem processGuess_ok_record
    {V : List String} {s : Store} {gameId playerId guess0 : String} {now : Nat}
    {r : GuessRecord} {c e : Bool} {w : Option WinnerInfo} {rem : Nat} {game : Game}
    (hg : getGameState s gameId = some game)
    (h : (processGuess V s gameId playerId guess0 now).2 = .ok r c e w rem) :
    r.word = trimS (toUpperS guess0) ∧ r.word.length = 5 ∧
    r.evaluation = evaluateGuessS r.word game.targetWord := by
  rw [processGuess, hg] at h
  simp only [] at h
  split at h
  · simp at h
  · split at h
    · simp at h
    · split at h
      · simp at h
      · split at h
        · simp at h
        · split at h
          · simp at h
          · rename_i hlen hval hcnt
            simp only [Prod.snd, GuessOutcome.ok.injEq] at h
            obtain ⟨h1, h2, h3, h4, h5⟩ := h
            subst h1
            refine ⟨rfl, ?_, rfl⟩
            show (trimS (toUpperS guess0)).length = 5
            omega

/-- C4: the game:opponent:guess payload built for the opponent contains only
the color sequence and the guess ordinal — the OpponentGuessEvent type has no
other field and its construction reads nothing else of the record — so any
two accepted guesses with the same color pattern and ordinal produce
identical opponent-visible payloads (no information about the guessed
letters flows to the opponent); and for every accepted guess in a match
whose target is a 5-letter word the color sequence has length 5. -/
theorem C4_opponent_masking :
    (∀ r1 r2 : GuessRecord,
        r1.evaluation.map LetterColor.color = r2.evaluation.map LetterColor.color →
        r1.guessNumber = r2.guessNumber →
        opponentGuessEvent r1 = opponentGuessEvent r2) ∧
    (∀ (V : List String) (s : Store) (gameId playerId guess0 : String) (now : Nat)
        (r : GuessRecord) (c e : Bool) (w : Option WinnerInfo) (rem : Nat)
        (game : Game),
        getGameState s gameId = some game →
        game.targetWord.length = 5 →
        (processGuess V s gameId playerId guess0 now).2 = .ok r c e w rem →
        opponentGuessEvent r =
          ⟨r.evaluation.map LetterColor.color, r.guessNumber⟩ ∧
        (opponentGuessEvent r).colors.length = 5) := by
  constructor
  · intro r1 r2 hcol hord
    simp [opponentGuessEvent, hcol, hord]
  · intro V s gameId playerId guess0 now r c e w rem game hg htl h
    obtain ⟨hw, hl5, hev⟩ := processGuess_ok_record hg h
    refine ⟨rfl, ?_⟩
    show (r.evaluation.map LetterColor.color).length = 5
    rw [hev, List.length_map]
    exact evaluateGuessS_length r.word game.targetWord hl5 htl

/-- Player slot of the guessing player in the witness scenario. -/
def aliceSlot : PlayerSlot := ⟨"p1", "alice", 1200, some "s1", [], false, none⟩

/-- Opponent slot in the witness scenario. -/
def bobSlot : PlayerSlot := ⟨"p2", "bob", 1210, some "s2", [], false, none⟩

/-- A live match on target CRANE with no guesses yet. -/
def liveGame : Game :=
  ⟨"g1", "CRANE", "active", 0, [("p1", aliceSlot), ("p2", bobSlot)], [], none, none⟩

/-- A store holding only the live match and no win claim. -/
def liveStore : Store := ⟨[("g1", liveGame)], []⟩

/-- A two-word dictionary for witnesses. -/
def V0 : List String := ["CRANE", "SLATE", "PLATE"]

/-- Witness for C4: the guesses SLATE and PLATE against CRANE produce the
same color pattern, hence identical opponent payloads; and the accepted
guess slate in the live match yields a 5-color masked payload. -/
theorem C4_opponent_masking_witness :
    opponentGuessEvent ⟨"SLATE", evaluateGuessS "SLATE" "CRANE", 100, 1⟩ =
      opponentGuessEvent ⟨"PLATE", evaluateGuessS "PLATE" "CRANE", 777, 1⟩ ∧
    (opponentGuessEvent ⟨"SLATE", evaluateGuessS "SLATE" "CRANE", 100, 1⟩).colors.length = 5 :=
  ⟨C4_opponent_masking.1 _ _ (by decide) rfl,
   (C4_opponent_masking.2 V0 liveStore "g1" "p1" "slate" 100
      ⟨"SLATE", evaluateGuessS "SLATE" "CRANE", 100, 1⟩ false false none 5 liveGame
      rfl (by decide) (by decide)).2⟩

theorem processGuess_write_or_ok
    (V : List String) (s : Store) (gameId playerId guess0 : String) (now : Nat) :
    (processGuess V s gameId playerId guess0 now).1 = s ∨
    (processGuess V s gameId playerId guess0 now).2.isOk = true := by
  rw [processGuess]
  split
  · exact Or.inl rfl
  · split
    · exact Or.inl rfl
    · split
      · exact Or.inl rfl
      · simp only []
        split
        · exact Or.inl rfl
        · split
          · exact Or.inl rfl
          · split
            · exact Or.inl rfl
            · exact Or.inr rfl

/-- C3: for every stored ACTIVE match containing the submitting player with
fewer than 6 recorded guesses, processGuess accepts the submitted word iff
its uppercased-and-trimmed form has length exactly 5 and passes the
valid-guess membership test; and every rejected submission (whatever the
reason: missing match, inactive match, foreign player, bad length, unknown
word, exhausted guesses) returns an error with the store — hence the stored
match state — exactly unchanged (the source returns before its setGameState
call). -/
theorem C3_validation_and_no_write :
    (∀ (V : List String) (s : Store) (gameId playerId guess0 : String) (now : Nat)
        (game : Game) (player : PlayerSlot),
        getGameState s gameId = some game →
        game.status = GAME_ACTIVE →
        lookupPlayer game playerId = some player →
        player.guesses.length < MAX_GUESSES →
        ((processGuess V s gameId playerId guess0 now).2.isOk = true ↔
          ((trimS (toUpperS guess0)).length = 5 ∧
            isValidGuess V (trimS (toUpperS guess0)) = true))) ∧
    (∀ (V : List String) (s : Store) (gameId playerId guess0 : String) (now : Nat),
        (processGuess V s gameId playerId guess0 now).2.isOk = false →
        (processGuess V s gameId playerId guess0 now).1 = s) := by
  constructor
  · intro V s gameId playerId guess0 now game player hg hst hlp hcnt
    rw [processGuess, hg]
    simp only []
    rw [if_neg (fun hne => hne hst), hlp]
    simp only []
    by_cases hl : (trimS (toUpperS guess0)).length = 5
    · rw [if_neg (fun hne => hne hl)]
      by_cases hv : isValidGuess V (trimS (toUpperS guess0)) = true
      · rw [if_neg (not_not_intro hv), if_neg (by omega)]
        exact iff_of_true rfl ⟨hl, hv⟩
      · rw [if_pos hv]
        exact iff_of_false (fun hok => Bool.noConfusion hok) (fun hc => hv hc.2)
    · rw [if_pos hl]
      exact iff_of_false (fun hok => Bool.noConfusion hok) (fun hc => hl hc.1)
  · intro V s gameId playerId guess0 now herr
    rcases processGuess_write_or_ok V s gameId playerId guess0 now with hw | hok
    · exact hw
    · rw [herr] at hok
      exact absurd hok (by simp)

/-- Witness for C3: in the live match, the in-dictionary word slate is
accepted, the 4-letter word HERO is rejected, and the rejected call leaves
the store unchanged. -/
theorem C3_validation_and_no_write_witness :
    ((processGuess V0 liveStore "g1" "p1" "slate" 100).2.isOk = true ↔
      ((trimS (toUpperS "slate")).length = 5 ∧
        isValidGuess V0 (trimS (toUpperS "slate")) = true)) ∧
    ((processGuess V0 liveStore "g1" "p1" "HERO" 100).2.isOk = true ↔
      ((trimS (toUpperS "HERO")).length = 5 ∧
        isValidGuess V0 (trimS (toUpperS "HERO")) = true)) ∧
    (processGuess V0 liveStore "g1" "p1" "HERO" 100).1 = liveStore :=
  ⟨C3_validation_and_no_write.1 V0 liveStore "g1" "p1" "slate" 100 liveGame aliceSlot
      rfl rfl rfl (by decide),
   C3_validation_and_no_write.1 V0 liveStore "g1" "p1" "HERO" 100 liveGame aliceSlot
      rfl rfl rfl (by decide),
   C3_validation_and_no_write.2 V0 liveStore "g1" "p1" "HERO" 100 (by decide)⟩

/-- A sequence of acquireWinLock calls on one matchId threaded through the
store: the serialized outcome of any interleaving of concurrent claimants
(Redis serializes SET NX calls on one key). -/
def foldAcquire (gameId : String) : Store → List (String × Nat) → List Bool
  | _, [] => []
  | s, c :: rest =>
    match acquireWinLock s gameId c.1 c.2 with
    | (won, s1) => won :: foldAcquire gameId s1 rest

theorem foldAcquire_locked (gameId : String) (wcl : WinClaim) :
    ∀ (calls : List (String × Nat)) (s : Store),
      lockLookup s gameId = some wcl →
      foldAcquire gameId s calls = List.replicate calls.length false := by
  intro calls
  induction calls with
  | nil => intro s _; rfl
  | cons cp rest ih =>
    intro s h
    have ha : acquireWinLock s gameId cp.1 cp.2 = (false, s) := by
      rw [acquireWinLock, h]
    simp only [foldAcquire, ha]
    rw [ih s h]
    simp [List.replicate_succ]

theorem getGameState_set (s : Store) (gid : String) (g : Game) :
    getGameState (setGameState s gid g) gid = some g := by
  simp [getGameState, setGameState]

theorem find?_updateSlot (ps : List (String × PlayerSlot)) (pid : String)
    (f : PlayerSlot → PlayerSlot) :
    (updateSlot ps pid f).find? (fun p => p.1 == pid) =
      (ps.find? (fun p => p.1 == pid)).map (fun q => (q.1, f q.2)) := by
  induction ps with
  | nil => rfl
  | cons q ps ih =>
    simp only [updateSlot, List.map_cons] at ih ⊢
    by_cases hq : q.1 = pid
    · simp [List.find?_cons, hq]
    · simp only [List.find?_cons, if_neg hq]
      have hb : (q.1 == pid) = false := by simpa using hq
      simp [hb, ih]

theorem lookupPlayer_applyGuess (game : Game) (pid : String) (r : GuessRecord)
    (player : PlayerSlot) (h : lookupPlayer game pid = some player) :
    lookupPlayer (applyGuess game pid r) pid =
      some { player with guesses := player.guesses ++ [r] } := by
  rw [lookupPlayer] at h ⊢
  have hp : (applyGuess game pid r).players =
      updateSlot game.players pid (fun sl => { sl with guesses := sl.guesses ++ [r] }) := rfl
  rw [hp, find?_updateSlot]
  cases hf : game.players.find? (fun p => p.1 == pid) with
  | none => rw [hf] at h; simp at h
  | some q =>
    rw [hf] at h
    have hq2 : q.2 = player := by simpa using h
    simp [hq2]

theorem winPhase_locked (s : Store) (gameId playerId : String) (now : Nat)
    (cnt : Nat) (g1 : Game) (wcl : WinClaim)
    (hlock : lockLookup s gameId = some wcl) :
    winPhase s gameId playerId now true cnt g1 =
      ({ g1 with
          status := GAME_FINISHED
          winner := some wcl.playerId
          endTime := some wcl.timestamp }, s, true, none) := by
  have ha : acquireWinLock s gameId playerId now = (false, s) := by
    rw [acquireWinLock, hlock]
  have hw : getWinner s gameId = some wcl := hlock
  simp only [winPhase, ha, hw]
  rw [if_pos trivial]

theorem processGuess_loser_path
    (V : List String) (s : Store) (gameId playerId guess0 : String) (now : Nat)
    (game : Game) (player : PlayerSlot) (wcl : WinClaim)
    (hg : getGameState s gameId = some game)
    (hst : game.status = GAME_ACTIVE)
    (hlp : lookupPlayer game playerId = some player)
    (hlen : (trimS (toUpperS guess0)).length = 5)
    (hval : isValidGuess V (trimS (toUpperS guess0)) = true)
    (hcnt : player.guesses.length < MAX_GUESSES)
    (hcor : isCorrectGuess (trimS (toUpperS guess0)) game.targetWord = true)
    (hlock : lockLookup s gameId = some wcl) :
    (processGuess V s gameId playerId guess0 now).2 =
      .ok ⟨trimS (toUpperS guess0),
           evaluateGuessS (trimS (toUpperS guess0)) game.targetWord,
           now, player.guesses.length + 1⟩ true true none
        (MAX_GUESSES - (player.guesses.length + 1)) ∧
    getGameState (processGuess V s gameId playerId guess0 now).1 gameId =
      some { applyGuess game playerId
              ⟨trimS (toUpperS guess0),
               evaluateGuessS (trimS (toUpperS guess0)) game.targetWord,
               now, player.guesses.length + 1⟩ with
             status := GAME_FINISHED
             winner := some wcl.playerId
             endTime := some wcl.timestamp } := by
  rw [processGuess, hg]
  simp only []
  rw [if_neg (fun hne => hne hst), hlp]
  simp only []
  rw [if_neg (fun hne => hne hlen), if_neg (not_not_intro hval), if_neg (by omega)]
  rw [hcor]
  rw [winPhase_locked s gameId playerId now (player.guesses.length + 1) _ wcl hlock]
  simp only [drawPhase, if_pos rfl]
  exact ⟨rfl, getGameState_set _ _ _⟩

/-- C2: win arbitration is first-writer-wins and total.  (i) A fresh
acquireWinLock call succeeds and records its claimant; (ii) a call against
an existing claim fails and changes nothing; (iii) in any serialized
sequence of claim calls on one matchId starting from an unclaimed lock the
first call returns true and every later call returns false; (iv) a correct
guess whose win claim fails (the lock already held by the race winner) still
returns success with its guess record, the stored match is FINISHED with
winnerId equal to the already-claimed race winner, and the loser's guess is
appended to their slot and to the replay log. -/
theorem C2_single_winner :
    (∀ (s : Store) (gameId playerId : String) (now : Nat),
        lockLookup s gameId = none →
        (acquireWinLock s gameId playerId now).1 = true ∧
        lockLookup (acquireWinLock s gameId playerId now).2 gameId =
          some ⟨playerId, now⟩) ∧
    (∀ (s : Store) (gameId playerId : String) (now : Nat) (wcl : WinClaim),
        lockLookup s gameId = some wcl →
        acquireWinLock s gameId playerId now = (false, s)) ∧
    (∀ (s : Store) (gameId : String) (c : String × Nat) (rest : List (String × Nat)),
        lockLookup s gameId = none →
        foldAcquire gameId s (c :: rest) = true :: List.replicate rest.length false) ∧
    (∀ (V : List String) (s : Store) (gameId playerId guess0 : String) (now : Nat)
        (game : Game) (player : PlayerSlot) (wcl : WinClaim),
        getGameState s gameId = some game →
        game.status = GAME_ACTIVE →
        lookupPlayer game playerId = some player →
        (trimS (toUpperS guess0)).length = 5 →
        isValidGuess V (trimS (toUpperS guess0)) = true →
        player.guesses.length < MAX_GUESSES →
        isCorrectGuess (trimS (toUpperS guess0)) game.targetWord = true →
        lockLookup s gameId = some wcl →
        (processGuess V s gameId playerId guess0 now).2 =
          .ok ⟨trimS (toUpperS guess0),
               evaluateGuessS (trimS (toUpperS guess0)) game.targetWord,
               now, player.guesses.length + 1⟩ true true none
            (MAX_GUESSES - (player.guesses.length + 1)) ∧
        (∃ gameF : Game,
          getGameState (processGuess V s gameId playerId guess0 now).1 gameId =
            some gameF ∧
          gameF.status = GAME_FINISHED ∧
          gameF.winner = some wcl.playerId ∧
          gameF.endTime = some wcl.timestamp ∧
          lookupPlayer gameF playerId =
            some { player with guesses := player.guesses ++
              [⟨trimS (toUpperS guess0),
                evaluateGuessS (trimS (toUpperS guess0)) game.targetWord,
                now, player.guesses.length + 1⟩] } ∧
          gameF.replayLog = game.replayLog ++
            [⟨playerId, "guess",
              some ⟨trimS (toUpperS guess0),
                    evaluateGuessS (trimS (toUpperS guess0)) game.targetWord,
                    now, player.guesses.length + 1⟩, none⟩])) := by
  refine ⟨?_, ?_, ?_, ?_⟩
  · intro s gameId playerId now h
    rw [acquireWinLock, h]
    exact ⟨rfl, by simp [lockLookup]⟩
  · intro s gameId playerId now wcl h
    rw [acquireWinLock, h]
  · intro s gameId c rest h
    have ha : acquireWinLock s gameId c.1 c.2 =
        (true, { s with locks := (gameId, ⟨c.1, c.2⟩) :: s.locks }) := by
      rw [acquireWinLock, h]
    simp only [foldAcquire, ha]
    rw [foldAcquire_locked gameId ⟨c.1, c.2⟩ rest _ (by simp [lockLookup])]
  · intro V s gameId playerId guess0 now game player wcl hg hst hlp hlen hval hcnt hcor hlock
    obtain ⟨h1, h2⟩ := processGuess_loser_path V s gameId playerId guess0 now
      game player wcl hg hst hlp hlen hval hcnt hcor hlock
    refine ⟨h1, ⟨_, h2, rfl, rfl, rfl, ?_, rfl⟩⟩
    exact lookupPlayer_applyGuess game playerId _ player hlp

/-- The live match's store with the win claim already held by p2 (the race
winner) at time 50. -/
def lockedStore : Store := ⟨[("g1", liveGame)], [("g1", ⟨"p2", 50⟩)]⟩

/-- Witness for C2: a fresh claim on the live match succeeds and records p1;
three serialized claims yield [true, false, false]; and p1's correct guess
crane against the already-claimed match is recorded while the stored winner
stays p2. -/
theorem C2_single_winner_witness :
    ((acquireWinLock liveStore "g1" "p1" 100).1 = true ∧
      lockLookup (acquireWinLock liveStore "g1" "p1" 100).2 "g1" =
        some ⟨"p1", 100⟩) ∧
    (foldAcquire "g1" liveStore [("p1", 100), ("p2", 101), ("p1", 102)] =
      true :: List.replicate 2 false) ∧
    ((processGuess V0 lockedStore "g1" "p1" "crane" 100).2 =
      .ok ⟨"CRANE", evaluateGuessS "CRANE" "CRANE", 100, 1⟩ true true none 5 ∧
    (∃ gameF : Game,
      getGameState (processGuess V0 lockedStore "g1" "p1" "crane" 100).1 "g1" =
        some gameF ∧
      gameF.status = GAME_FINISHED ∧
      gameF.winner = some "p2" ∧
      gameF.endTime = some 50 ∧
      lookupPlayer gameF "p1" =
        some { aliceSlot with
               guesses := [⟨"CRANE", evaluateGuessS "CRANE" "CRANE", 100, 1⟩] } ∧
      gameF.replayLog =
        [⟨"p1", "guess", some ⟨"CRANE", evaluateGuessS "CRANE" "CRANE", 100, 1⟩,
          none⟩])) :=
  ⟨C2_single_winner.1 liveStore "g1" "p1" 100 rfl,
   C2_single_winner.2.2.1 liveStore "g1" ("p1", 100) [("p2", 101), ("p1", 102)] rfl,
   C2_single_winner.2.2.2 V0 lockedStore "g1" "p1" "crane" 100 liveGame aliceSlot
     ⟨"p2", 50⟩ rfl rfl rfl (by decide) (by decide) (by decide) (by decide) rfl⟩

/-! ### Supporting analysis for C7: outside the easy first-guess branch,
every selectGuess path stays inside the valid-guess set (given the
spec-modelled dictionary facts: remaining answers and openers inside the
valid-guess set).  This isolates the HERO/LIVING/SHOT leak to the easy
first guess. -/

theorem getD_zero_mem {α : Type} (l : List α) (d : α) (h : l ≠ []) :
    l.getD 0 d ∈ l := by
  have hp : 0 < l.length := List.length_pos.mpr h
  rw [List.getD_eq_getElem l d hp]
  exact List.getElem_mem hp

theorem commonFiltered_sub (u : Bool) (pa : List String) :
    ∀ w ∈ commonFiltered u pa, w ∈ pa := by
  intro w hw
  rw [commonFiltered] at hw
  split at hw
  · simp only [] at hw
    split at hw
    · exact hw
    · exact (List.mem_filter.mp hw).1
  · exact hw

theorem commonFiltered_ne (u : Bool) (pa : List String) (h : pa ≠ []) :
    commonFiltered u pa ≠ [] := by
  rw [commonFiltered]
  split
  · simp only []
    split
    · exact h
    · rename_i hf
      intro hc
      rw [hc] at hf
      simp at hf
  · exact h

theorem chooseWasteWord_mem (V : List String) (cs : List Constraint)
    (u : Bool) (idx : Nat) (hV : V ≠ []) :
    chooseWasteWord V cs u idx ∈ V := by
  rw [chooseWasteWord]
  set pool0 := if u then V.filter (fun w => decide (w ∈ COMMON_WORDS)) else V with hp0
  have hp0sub : ∀ w ∈ pool0, w ∈ V := by
    intro w hw
    rw [hp0] at hw
    split at hw
    · exact (List.mem_filter.mp hw).1
    · exact hw
  set pool1 := filterPossibleAnswers pool0 cs with hp1
  have hp1sub : ∀ w ∈ pool1, w ∈ V := by
    intro w hw
    rw [hp1, filterPossibleAnswers] at hw
    exact hp0sub w (List.mem_filter.mp hw).1
  set pool2 := if pool1.length = 0 then V else pool1 with hp2
  have hp2sub : ∀ w ∈ pool2, w ∈ V := by
    intro w hw
    rw [hp2] at hw
    split at hw
    · exact hw
    · exact hp1sub w hw
  have hp2ne : pool2 ≠ [] := by
    rw [hp2]
    split
    · exact hV
    · rename_i hz
      intro hc
      rw [hc] at hz
      simp at hz
  set srt := pool2.mergeSort (fun a b => decide (uniqueLetters b ≤ uniqueLetters a)) with hs
  have hsperm : srt.Perm pool2 := by rw [hs]; exact List.mergeSort_perm pool2 _
  have hsne : srt ≠ [] := by
    intro hc
    exact hp2ne (List.Perm.nil_eq (hc ▸ hsperm)).symm
  have htne : srt.take (min 50 srt.length) ≠ [] := by
    intro hc
    have h2 := congrArg List.length hc
    rw [List.length_take] at h2
    simp only [List.length_nil] at h2
    have hl : 0 < srt.length := List.length_pos.mpr hsne
    omega
  have hmem := randPick_mem (srt.take (min 50 srt.length)) idx htne
  have hmem2 : randPick (srt.take (min 50 srt.length)) idx ∈ srt :=
    List.mem_of_mem_take hmem
  exact hp2sub _ (hsperm.subset hmem2)


theorem sampleStep_mem {V : List String} {o : RandChoices} {acc : List String}
    {i : Nat} {x : String} (hx : x ∈ sampleStep V o acc i) (hV : V ≠ []) :
    x ∈ acc ∨ x ∈ V := by
  rw [sampleStep] at hx
  split at hx
  · exact Or.inl hx
  · rcases List.mem_append.mp hx with h1 | h1
    · exact Or.inl h1
    · have hp : o.sampleIdx i % V.length < V.length :=
        Nat.mod_lt _ (List.length_pos.mpr hV)
      have hx1 : x = V.getD (o.sampleIdx i % V.length) "" := List.mem_singleton.mp h1
      rw [hx1, List.getD_eq_getElem V "" hp]
      exact Or.inr (List.getElem_mem hp)

theorem sampleStep_ne {V : List String} {o : RandChoices} {acc : List String}
    {i : Nat} (h : acc ≠ []) : sampleStep V o acc i ≠ [] := by
  rw [sampleStep]
  split
  · exact h
  · intro hc
    have h2 := congrArg List.length hc
    simp at h2

theorem sampleCandidates_mem (V : List String) (o : RandChoices)
    (init : List String) :
    ∀ x ∈ sampleCandidates V o init, x ∈ init ∨ x ∈ V := by
  rw [sampleCandidates]
  by_cases hV : V = []
  · subst hV
    intro x hx
    simp only [List.length_nil, Nat.min_zero, List.range_zero,
      List.foldl_nil] at hx
    exact Or.inl hx
  · generalize List.range (min 500 V.length) = l
    induction l generalizing init with
    | nil => intro x hx; exact Or.inl hx
    | cons i l ih =>
      intro x hx
      rw [List.foldl_cons] at hx
      rcases ih _ x hx with h | h
      · exact sampleStep_mem h hV
      · exact Or.inr h

theorem sampleCandidates_ne (V : List String) (o : RandChoices)
    (init : List String) (h : init ≠ []) :
    sampleCandidates V o init ≠ [] := by
  rw [sampleCandidates]
  generalize List.range (min 500 V.length) = l
  induction l generalizing init with
  | nil => exact h
  | cons i l ih =>
    rw [List.foldl_cons]
    exact ih _ (sampleStep_ne h)

theorem getBest_mem (pa cand : List String) (topN : Nat) (noiseAmp : ℝ)
    (o : RandChoices) :
    ∀ sc ∈ getBestGuessesByEntropy pa cand topN noiseAmp o, sc.word ∈ cand := by
  intro sc hsc
  rw [getBestGuessesByEntropy] at hsc
  have h1 := List.mem_of_mem_take hsc
  have h2 := (List.mergeSort_perm _ _).subset h1
  obtain ⟨g, hg, hge⟩ := List.mem_map.mp h2
  rw [← hge]
  exact hg

theorem getBest_ne (pa cand : List String) (topN : Nat) (noiseAmp : ℝ)
    (o : RandChoices) (hc : cand ≠ []) (ht : 1 ≤ topN) :
    getBestGuessesByEntropy pa cand topN noiseAmp o ≠ [] := by
  rw [getBestGuessesByEntropy]
  intro hz
  have h2 := congrArg List.length hz
  rw [List.length_take, List.length_nil] at h2
  have h3 := (List.mergeSort_perm
    (cand.map (fun g =>
      ({ word := g
         entropy := calculateEntropy g pa +
           (if noiseAmp = 0 then 0 else (o.noiseRoll g - 1/2) * noiseAmp) } : Score)))
    (fun a b => decide (b.entropy ≤ a.entropy))).length_eq
  rw [List.length_map] at h3
  have h4 : 0 < cand.length := List.length_pos.mpr hc
  omega

theorem difficultyConfig_topN (d : String) (k : Nat)
    (h : (difficultyConfig d).topN = some k) : 1 ≤ k := by
  by_cases h1 : d = "impossible"
  · subst h1; simp [difficultyConfig, DIFFICULTIES] at h; omega
  · by_cases h2 : d = "hard"
    · subst h2; simp [difficultyConfig, DIFFICULTIES] at h; omega
    · by_cases h3 : d = "medium"
      · subst h3; simp [difficultyConfig, DIFFICULTIES] at h; omega
      · by_cases h4 : d = "easy"
        · subst h4; simp [difficultyConfig, DIFFICULTIES] at h
        · have e1 : ("impossible" == d) = false := by
            simp only [beq_eq_false_iff_ne]; exact fun hc => h1 hc.symm
          have e2 : ("hard" == d) = false := by
            simp only [beq_eq_false_iff_ne]; exact fun hc => h2 hc.symm
          have e3 : ("medium" == d) = false := by
            simp only [beq_eq_false_iff_ne]; exact fun hc => h3 hc.symm
          have e4 : ("easy" == d) = false := by
            simp only [beq_eq_false_iff_ne]; exact fun hc => h4 hc.symm
          simp [difficultyConfig, DIFFICULTIES, List.find?, e1, e2, e3, e4] at h
          omega

theorem selectGuess_mem_valid (V : List String) (o : RandChoices)
    (difficulty : String) (pa : List String) (cs : List Constraint) (n : Nat)
    (hpa : ∀ w ∈ pa, w ∈ V) (hpane : pa ≠ []) (hV : V ≠ [])
    (hop : ∀ w ∈ OPTIMAL_FIRST_GUESSES, w ∈ V)
    (hne : ¬ (difficulty = "easy" ∧ n = 1 ∧ cs = [])) :
    selectGuess V o difficulty pa cs n ∈ V := by
  rw [selectGuess]
  simp only []
  have hFsub : ∀ w ∈ commonFiltered (difficultyConfig difficulty).useCommonFilter pa,
      w ∈ V := fun w hw => hpa w (commonFiltered_sub _ _ w hw)
  have hFne := commonFiltered_ne (difficultyConfig difficulty).useCommonFilter pa hpane
  by_cases h1 : n = 1 ∧ cs.length = 0
  · rw [if_pos h1]
    by_cases he : difficulty = "easy"
    · exact absurd ⟨he, h1.1, List.length_eq_zero.mp h1.2⟩ hne
    · rw [if_neg he]
      exact hop _ (randPick_mem _ _ (by decide))
  · rw [if_neg h1]
    by_cases h2 : (commonFiltered (difficultyConfig difficulty).useCommonFilter pa).length = 1
    · rw [if_pos h2]
      by_cases h3 : n < (difficultyConfig difficulty).minSolveGuess
      · rw [if_pos h3]
        exact chooseWasteWord_mem V cs _ _ hV
      · rw [if_neg h3]
        exact hFsub _ (getD_zero_mem _ _ hFne)
    · rw [if_neg h2]
      by_cases h4 : (commonFiltered (difficultyConfig difficulty).useCommonFilter pa).length = 2
      · rw [if_pos h4]
        by_cases h5 : n < (difficultyConfig difficulty).minSolveGuess
        · rw [if_pos h5]
          exact chooseWasteWord_mem V cs _ _ hV
        · rw [if_neg h5]
          exact hFsub _ (randPick_mem _ _ hFne)
      · rw [if_neg h4]
        by_cases h6 : difficulty = "easy" ∨ (difficultyConfig difficulty).topN = none
        · rw [if_pos h6]
          have hplen : (commonFiltered (difficultyConfig difficulty).useCommonFilter pa).length ≠ 0 :=
            fun hc => hFne (List.length_eq_zero.mp hc)
          rw [if_pos hplen]
          by_cases h7 : n < (difficultyConfig difficulty).minSolveGuess
          · rw [if_pos h7]
            exact chooseWasteWord_mem V cs _ _ hV
          · rw [if_neg h7]
            by_cases h8 : wasteTriggered (difficultyConfig difficulty).wasteWordChance
                o.easyWasteRoll = true
            · rw [if_pos h8]
              exact chooseWasteWord_mem V cs _ _ hV
            · rw [if_neg h8]
              exact hFsub _ (randPick_mem _ _ hFne)
        · rw [if_neg h6]
          push_neg at h6
          obtain ⟨h6a, h6b⟩ := h6
          obtain ⟨k, hk⟩ := Option.ne_none_iff_exists'.mp h6b
          have hk1 : 1 ≤ k := difficultyConfig_topN difficulty k hk
          have hkd : 1 ≤ (difficultyConfig difficulty).topN.getD 10 := by
            rw [hk]
            simpa using hk1
          have hcandne := sampleCandidates_ne V o
            (commonFiltered (difficultyConfig difficulty).useCommonFilter pa) hFne
          have htgne := getBest_ne
            (commonFiltered (difficultyConfig difficulty).useCommonFilter pa)
            (sampleCandidates V o (commonFiltered (difficultyConfig difficulty).useCommonFilter pa))
            ((difficultyConfig difficulty).topN.getD 10)
            (difficultyConfig difficulty).noise o hcandne hkd
          have htgmem : ∀ sc ∈ getBestGuessesByEntropy
              (commonFiltered (difficultyConfig difficulty).useCommonFilter pa)
              (sampleCandidates V o (commonFiltered (difficultyConfig difficulty).useCommonFilter pa))
              ((difficultyConfig difficulty).topN.getD 10)
              (difficultyConfig difficulty).noise o, sc.word ∈ V := by
            intro sc hsc
            have hw := getBest_mem _ _ _ _ _ sc hsc
            rcases sampleCandidates_mem V o _ _ hw with h | h
            · exact hFsub _ h
            · exact h
          by_cases h9 : (difficultyConfig difficulty).useCommonFilter ∧
              ((getBestGuessesByEntropy
                (commonFiltered (difficultyConfig difficulty).useCommonFilter pa)
                (sampleCandidates V o (commonFiltered (difficultyConfig difficulty).useCommonFilter pa))
                ((difficultyConfig difficulty).topN.getD 10)
                (difficultyConfig difficulty).noise o).filter
                  (fun s => decide (s.word ∈ COMMON_WORDS))).length ≠ 0
          · rw [if_pos h9]
            have hcne : (getBestGuessesByEntropy
                (commonFiltered (difficultyConfig difficulty).useCommonFilter pa)
                (sampleCandidates V o (commonFiltered (difficultyConfig difficulty).useCommonFilter pa))
                ((difficultyConfig difficulty).topN.getD 10)
                (difficultyConfig difficulty).noise o).filter
                  (fun s => decide (s.word ∈ COMMON_WORDS)) ≠ [] := by
              intro hc
              exact h9.2 (by rw [hc]; rfl)
            have hmm := randPick_mem _ o.commonPickIdx hcne
            exact htgmem _ (List.mem_filter.mp hmm).1
          · rw [if_neg h9]
            by_cases h10 : difficulty = "impossible"
            · rw [if_pos h10]
              exact htgmem _ (getD_zero_mem _ _ htgne)
            · rw [if_neg h10]
              by_cases h11 : wasteTriggered (difficultyConfig difficulty).wasteWordChance
                  o.medWasteRoll = true
              · rw [if_pos h11]
                by_cases h12 : n < (difficultyConfig difficulty).minSolveGuess ∧
                    chooseWasteWord V cs (difficultyConfig difficulty).useCommonFilter
                      o.wasteIdx5 ∈ commonFiltered (difficultyConfig difficulty).useCommonFilter pa
                · rw [if_pos h12]
                  exact chooseWasteWord_mem V cs _ _ hV
                · rw [if_neg h12]
                  exact chooseWasteWord_mem V cs _ _ hV
              · rw [if_neg h11]
                by_cases h12 : n < (difficultyConfig difficulty).minSolveGuess ∧
                    (randPick (getBestGuessesByEntropy
                      (commonFiltered (difficultyConfig difficulty).useCommonFilter pa)
                      (sampleCandidates V o (commonFiltered (difficultyConfig difficulty).useCommonFilter pa))
                      ((difficultyConfig difficulty).topN.getD 10)
                      (difficultyConfig difficulty).noise o) o.topPickIdx).word ∈
                      commonFiltered (difficultyConfig difficulty).useCommonFilter pa
                · rw [if_pos h12]
                  exact chooseWasteWord_mem V cs _ _ hV
                · rw [if_neg h12]
                  exact htgmem _ (randPick_mem _ _ htgne)
